import Mathlib

/-!
Verification development for the MariaDB cluster-review analysis engine.

The Python source is shallowly embedded: status/configuration maps are
association lists of strings, Python ints are `Int`, Python floats are
modelled as exact rationals (`ℚ`; every comparison and constant exercised
here is exactly representable in binary floating point, so the model and
the float semantics agree on all inputs used), and Python `or`-defaulting,
`int()` / `float()` coercion failures and dictionary lookups are modelled
explicitly.  Free-text fields of findings and recommendations that no
property depends on (description, impact, effort) are omitted; where the
source interpolates a hostname / log name / service name into a finding
title, the embedding keeps the constant title text and carries the
identifier in the `node` field instead.
-/

namespace MariaDBReview

/-! ## Python value coercion helpers -/

/-- All characters are decimal digits and the list is non-empty. -/
def allDigits (cs : List Char) : Bool :=
  !cs.isEmpty && cs.all (·.isDigit)

/-- Numeric value of a digit list (only meaningful when `allDigits`). -/
def digitsVal (cs : List Char) : Nat :=
  cs.foldl (fun a c => a * 10 + (c.toNat - 48)) 0

/-- Strip leading and trailing whitespace (Python `str.strip`, Lean
`String.trim`), implemented on the character list. -/
def listStrip (cs : List Char) : List Char :=
  (((cs.dropWhile (·.isWhitespace)).reverse).dropWhile (·.isWhitespace)).reverse

/-- Python `str.lower` (ASCII inputs only are exercised). -/
def lowerStr (s : String) : String := ⟨s.toList.map Char.toLower⟩

/-- Python `str.upper`. -/
def upperStr (s : String) : String := ⟨s.toList.map Char.toUpper⟩

/-- Split a character list at every occurrence of `c`, keeping empty
segments (Python `str.split(c)` semantics). -/
def splitOnChar (c : Char) : List Char → List (List Char)
  | [] => [[]]
  | x :: tl =>
      let r := splitOnChar c tl
      if x = c then [] :: r
      else
        match r with
        | h :: t => (x :: h) :: t
        | [] => [[x]]

/-- `content.split('\n')`. -/
def splitLines (s : String) : List String :=
  (splitOnChar '\x0a' s.toList).map (fun cs => ⟨cs⟩)

/-- Python `int(s)` on a string: optional surrounding whitespace, optional
sign, one or more digits; anything else raises `ValueError`, modelled as
`none`.  (Python additionally accepts digit-group underscores and
non-ASCII digits; no input in this development uses them.) -/
def pyInt (s : String) : Option Int :=
  let cs := listStrip s.toList
  match cs with
  | '+' :: rest => if allDigits rest then some (Int.ofNat (digitsVal rest)) else none
  | '-' :: rest => if allDigits rest then some (-(Int.ofNat (digitsVal rest))) else none
  | _ => if allDigits cs then some (Int.ofNat (digitsVal cs)) else none

/-- Mantissa of a Python float literal: `digits`, `digits.digits`,
`digits.` or `.digits` (at least one digit overall). -/
def pyFloatMantissa (cs : List Char) : Option ℚ :=
  let intPart := cs.takeWhile (·.isDigit)
  let rest := cs.drop intPart.length
  match rest with
  | [] => if intPart.isEmpty then none else some ((digitsVal intPart : ℤ) : ℚ)
  | '.' :: frac =>
      if frac.all (·.isDigit) then
        if intPart.isEmpty && frac.isEmpty then none
        else some (((digitsVal intPart : ℤ) : ℚ) +
          ((digitsVal frac : ℤ) : ℚ) / ((10 : ℚ) ^ frac.length))
      else none
  | _ => none

/-- Signed mantissa. -/
def pyFloatSigned (cs : List Char) : Option ℚ :=
  match cs with
  | '+' :: rest => pyFloatMantissa rest
  | '-' :: rest => (pyFloatMantissa rest).map (fun q => -q)
  | _ => pyFloatMantissa cs

/-- Python `float(s)`: optional sign, mantissa, optional exponent part.
Failures (`ValueError`) are `none`.  (`inf` / `nan` literals are accepted
by Python but never occur in the inputs of this development.) -/
def pyFloat (s : String) : Option ℚ :=
  let cs := (listStrip s.toList).map Char.toLower
  match splitOnChar 'e' cs with
  | [m] => pyFloatSigned m
  | [m, e] =>
      match pyFloatSigned m with
      | none => none
      | some q =>
          match e with
          | '+' :: d => if allDigits d then some (q * (10 : ℚ) ^ (digitsVal d)) else none
          | '-' :: d => if allDigits d then some (q / (10 : ℚ) ^ (digitsVal d)) else none
          | d => if allDigits d then some (q * (10 : ℚ) ^ (digitsVal d)) else none
  | _ => none

/-- Truncation toward zero, as Python `int(float)`. -/
def ratTrunc (q : ℚ) : Int :=
  if 0 ≤ q then ⌊q⌋ else -⌊-q⌋

/-- First binding of `k` in an association list (Python `dict.get`). -/
def lookupStr (m : List (String × String)) (k : String) : Option String :=
  (m.find? (fun p => p.1 == k)).map (·.2)

/-- Substring containment, Python `needle in haystack`. -/
def containsSubstr (haystack needle : String) : Bool :=
  (haystack.toList.tails).any (fun t => needle.toList.isPrefixOf t)

/-! ## Enumerations and data model (src/models/input.py, output.py) -/

inductive TopologyType where
  | standalone | master_replica | semi_sync | galera
deriving DecidableEq, Repr

inductive NodeRole where
  | standalone | master | replica | galera_node
deriving DecidableEq, Repr

inductive Severity where
  | info | warning | critical
deriving DecidableEq, Repr

/-- Numeric rank of a severity, for the escalation order info < warning <
critical (spec section 4.2). -/
def Severity.rank : Severity → Nat
  | .info => 0
  | .warning => 1
  | .critical => 2

/-- Escalation order on severities. -/
def sevLe (a b : Severity) : Prop := a.rank ≤ b.rank

instance : DecidablePred (fun p : Severity × Severity => sevLe p.1 p.2) :=
  fun p => inferInstanceAs (Decidable (p.1.rank ≤ p.2.rank))

instance (a b : Severity) : Decidable (sevLe a b) :=
  inferInstanceAs (Decidable (a.rank ≤ b.rank))

inductive Category where
  | performance | capacity | availability | configuration | security
  | replication | resource | storage | galera | network | general
deriving DecidableEq, Repr

/-- System resource record (src/models/input.py `SystemResources`).
Fields not referenced by any analyzed property (mount point, iops,
utilization percentages) are omitted.  Note the pydantic model has NO
`disk_type` field; requests carrying one have it silently dropped
(pydantic default `extra` handling). -/
structure SystemResources where
  cpu_cores : Int
  ram_gb : ℚ
  disk_total_gb : ℚ
  disk_used_gb : Option ℚ := none
deriving DecidableEq, Repr

/-- Per-node input snapshot (src/models/input.py `NodeData`). -/
structure NodeData where
  hostname : String := ""
  role : NodeRole := .standalone
  global_status : List (String × String) := []
  global_variables : List (String × String) := []
  slave_status : Option (List (String × String)) := none
  master_status : Option (List (String × String)) := none
  wsrep_status : Option (List (String × String)) := none
  system_resources : Option SystemResources := none
  uptime_seconds : Option Int := none
deriving DecidableEq, Repr

/-- `NodeData.get_status` with Python default `None`. -/
def NodeData.get_status (n : NodeData) (k : String) : Option String :=
  lookupStr n.global_status k

/-- `NodeData.get_status_int`: `int(self.global_status.get(key, default))`
with `ValueError`/`TypeError` giving the default. -/
def NodeData.get_status_int (n : NodeData) (k : String) (d : Int := 0) : Int :=
  match lookupStr n.global_status k with
  | none => d
  | some v => (pyInt v).getD d

/-- `NodeData.get_status_float`. -/
def NodeData.get_status_float (n : NodeData) (k : String) (d : ℚ := 0) : ℚ :=
  match lookupStr n.global_status k with
  | none => d
  | some v => (pyFloat v).getD d

/-- `NodeData.get_variable` with Python default `None`. -/
def NodeData.get_variable (n : NodeData) (k : String) : Option String :=
  lookupStr n.global_variables k

/-- `NodeData.get_variable_int`: handles size suffixes K/M/G on the
upper-cased, stripped value, truncating the scaled float toward zero as
Python `int()` does; parse failures give the default. -/
def NodeData.get_variable_int (n : NodeData) (k : String) (d : Int := 0) : Int :=
  match lookupStr n.global_variables k with
  | none => d
  | some v =>
      let u : List Char := listStrip (v.toList.map Char.toUpper)
      if u.getLast? = some 'G' then
        match pyFloat ⟨u.dropLast⟩ with
        | some q => ratTrunc (q * 1024 * 1024 * 1024)
        | none => d
      else if u.getLast? = some 'M' then
        match pyFloat ⟨u.dropLast⟩ with
        | some q => ratTrunc (q * 1024 * 1024)
        | none => d
      else if u.getLast? = some 'K' then
        match pyFloat ⟨u.dropLast⟩ with
        | some q => ratTrunc (q * 1024)
        | none => d
      else (pyInt ⟨u⟩).getD d

/-- Cluster review request (src/models/input.py `ClusterReviewRequest`);
description and expected-workload hints are unused by the analyzed code
paths and omitted. -/
structure MaxScaleServer where
  name : String := ""
  address : String := ""
  state : Option String := none
  connections : Option Int := none
  total_connections : Option Int := none
  queries : Option Int := none
deriving Repr

structure MaxScaleService where
  name : String := ""
  router : String := ""
  servers : List String := []
  route_master : Option Int := none
  route_slave : Option Int := none
  route_all : Option Int := none
  rw_transactions : Option Int := none
  ro_transactions : Option Int := none
  replayed_transactions : Option Int := none
  master_accept_reads : Option Bool := none
  transaction_replay : Option Bool := none
  slave_selection_criteria : Option String := none
deriving Repr

structure MaxScaleConfig where
  enabled : Bool := true
  servers : List MaxScaleServer := []
  services : List MaxScaleService := []
  uptime_seconds : Option Int := none
  total_connections : Option Int := none
  current_connections : Option Int := none
deriving Repr

structure ClusterReviewRequest where
  cluster_name : String := ""
  topology_type : TopologyType := .standalone
  nodes : List NodeData := []
  maxscale : Option MaxScaleConfig := none
deriving Repr

/-- A finding (src/models/output.py); free-text description and metric
value/threshold strings omitted, interpolated identifiers carried in
`node`. -/
structure Finding where
  severity : Severity
  category : Category
  title : String
  metric_name : Option String := none
  node : Option String := none
deriving DecidableEq, Repr

/-- A recommendation; description/impact/effort omitted. -/
structure Recommendation where
  priority : Int
  category : Category
  title : String
  action : String := ""
deriving DecidableEq, Repr

/-! ## Metric derivation library (src/utils/metrics.py) -/

/-- `node.uptime_seconds or node.get_status_int("Uptime", 1)` — Python
`or` falls through on `None` and on `0`. -/
def NodeData.effectiveUptime (n : NodeData) : Int :=
  match n.uptime_seconds with
  | some u => if u = 0 then n.get_status_int "Uptime" 1 else u
  | none => n.get_status_int "Uptime" 1

def calculate_queries_per_second (n : NodeData) : ℚ :=
  if n.effectiveUptime = 0 then 0
  else (n.get_status_int "Questions" 0 : ℚ) / (n.effectiveUptime : ℚ)

/-- `Com_insert + Com_update + Com_delete + Com_replace`, the write-counter
sum shared by `calculate_writes_per_second` and
`calculate_read_write_ratio`. -/
def writeCounterSum (n : NodeData) : Int :=
  n.get_status_int "Com_insert" 0 + n.get_status_int "Com_update" 0 +
    n.get_status_int "Com_delete" 0 + n.get_status_int "Com_replace" 0

def calculate_writes_per_second (n : NodeData) : ℚ :=
  if n.effectiveUptime = 0 then 0
  else (writeCounterSum n : ℚ) / (n.effectiveUptime : ℚ)

def calculate_reads_per_second (n : NodeData) : ℚ :=
  if n.effectiveUptime = 0 then 0
  else (n.get_status_int "Com_select" 0 : ℚ) / (n.effectiveUptime : ℚ)

/-- Python `float('inf')` sentinel for an infinite read/write ratio. -/
inductive RatioValue where
  | finite (q : ℚ)
  | infinite
deriving DecidableEq, Repr

def calculate_read_write_ratio (n : NodeData) : RatioValue :=
  if writeCounterSum n = 0 then
    (if n.get_status_int "Com_select" 0 > 0 then .infinite else .finite 0)
  else .finite ((n.get_status_int "Com_select" 0 : ℚ) / (writeCounterSum n : ℚ))

def calculate_connection_utilization (n : NodeData) : ℚ :=
  if n.get_variable_int "max_connections" 1 = 0 then 0
  else (n.get_status_int "Max_used_connections" 0 : ℚ) /
    (n.get_variable_int "max_connections" 1 : ℚ)

def calculate_buffer_pool_hit_ratio (n : NodeData) : ℚ :=
  if n.get_status_int "Innodb_buffer_pool_read_requests" 1 = 0 then 1
  else 1 - (n.get_status_int "Innodb_buffer_pool_reads" 0 : ℚ) /
    (n.get_status_int "Innodb_buffer_pool_read_requests" 1 : ℚ)

def calculate_buffer_pool_usage (n : NodeData) : ℚ :=
  if n.get_status_int "Innodb_buffer_pool_pages_total" 1 = 0 then 0
  else (n.get_status_int "Innodb_buffer_pool_pages_data" 0 : ℚ) /
    (n.get_status_int "Innodb_buffer_pool_pages_total" 1 : ℚ)

def calculate_slow_queries_per_hour (n : NodeData) : ℚ :=
  if n.effectiveUptime = 0 then 0
  else if (n.effectiveUptime : ℚ) / 3600 = 0 then 0
  else (n.get_status_int "Slow_queries" 0 : ℚ) / ((n.effectiveUptime : ℚ) / 3600)

def calculate_aborted_connections_per_hour (n : NodeData) : ℚ :=
  if n.effectiveUptime = 0 then 0
  else if (n.effectiveUptime : ℚ) / 3600 = 0 then 0
  else (n.get_status_int "Aborted_connects" 0 : ℚ) / ((n.effectiveUptime : ℚ) / 3600)

/-- `get_wsrep_status`: the wsrep map takes priority when it holds the
key, else fall back to global status. -/
def get_wsrep_status (n : NodeData) (k : String) : Option String :=
  match n.wsrep_status with
  | some m =>
      match lookupStr m k with
      | some v => some v
      | none => n.get_status k
  | none => n.get_status k

def get_wsrep_status_float (n : NodeData) (k : String) (d : ℚ := 0) : ℚ :=
  match get_wsrep_status n k with
  | none => d
  | some v => (pyFloat v).getD d

def get_wsrep_status_int (n : NodeData) (k : String) (d : Int := 0) : Int :=
  match get_wsrep_status n k with
  | none => d
  | some v => (pyInt v).getD d

def calculate_galera_flow_control_paused (n : NodeData) : ℚ :=
  get_wsrep_status_float n "wsrep_flow_control_paused" 0

def calculate_galera_recv_queue_avg (n : NodeData) : ℚ :=
  get_wsrep_status_float n "wsrep_local_recv_queue_avg" 0

def calculate_galera_send_queue_avg (n : NodeData) : ℚ :=
  get_wsrep_status_float n "wsrep_local_send_queue_avg" 0

/-- `is_replication_running`: both thread flags; `(False, False)` when no
slave status is present. -/
def is_replication_running (n : NodeData) : Bool × Bool :=
  match n.slave_status with
  | none => (false, false)
  | some m =>
      (upperStr ((lookupStr m "Slave_IO_Running").getD "No") == "YES",
       upperStr ((lookupStr m "Slave_SQL_Running").getD "No") == "YES")

/-- `get_replication_lag`: `None` when missing, literal `"NULL"`, or
unparseable. -/
def get_replication_lag (n : NodeData) : Option Int :=
  match n.slave_status with
  | none => none
  | some m =>
      match lookupStr m "Seconds_Behind_Master" with
      | none => none
      | some v => if v = "NULL" then none else pyInt v

/-! ## Thresholds (src/analyzers/base.py `_default_thresholds`)

`config/thresholds.yaml` is not part of the given sources; `_load_thresholds`
falls back to `_default_thresholds` when the file is absent, and the
analyzers are parameterised over the threshold record so the theorems hold
for any loaded configuration as well. -/

structure Thresholds where
  conn_warning : ℚ := 7/10
  conn_critical : ℚ := 9/10
  conn_underutilized : ℚ := 3/10
  bp_hit_warning : ℚ := 95/100
  bp_hit_critical : ℚ := 90/100
  bp_usage_underutilized : ℚ := 5/10
  slow_warning : ℚ := 100
  slow_critical : ℚ := 500
  fc_warning : ℚ := 1/100
  fc_critical : ℚ := 2/10
  recvq_warning : ℚ := 5/10
  recvq_critical : ℚ := 1
  sendq_warning : ℚ := 5/10
  sendq_critical : ℚ := 1
  lag_warning : Int := 30
  lag_critical : Int := 300
deriving Repr

def defaultThresholds : Thresholds := {}

/-! ## Base analyzer: per-node performance
(src/analyzers/base.py `analyze_node_performance`)

The node's `overall_status` evolves through a fixed sequence of checks;
each check is embedded as an update function `Severity → Severity` applied
in source order, so the status-evolution claims can be stated about the
very functions that define the result. -/

/-- Connection-utilization check: critical breach forces critical;
warning breach escalates to warning only when not already critical. -/
def connUtilStatusUpdate (th : Thresholds) (n : NodeData) (s : Severity) : Severity :=
  if calculate_connection_utilization n ≥ th.conn_critical then .critical
  else if calculate_connection_utilization n ≥ th.conn_warning then
    (if s ≠ .critical then .warning else s)
  else s

/-- Buffer-pool hit-ratio check (breach is below-threshold). -/
def bpHitStatusUpdate (th : Thresholds) (n : NodeData) (s : Severity) : Severity :=
  if calculate_buffer_pool_hit_ratio n < th.bp_hit_critical then .critical
  else if calculate_buffer_pool_hit_ratio n < th.bp_hit_warning then
    (if s ≠ .critical then .warning else s)
  else s

/-- Slow-queries check: the source sets the metric status and appends a
finding on a critical breach but NEVER assigns `overall_status`
(src/analyzers/base.py lines 197-222), so the node's overall severity is
left unchanged. -/
def slowQueriesStatusUpdate (_th : Thresholds) (_n : NodeData) (s : Severity) : Severity :=
  s

/-- The base per-node check sequence, in source order (QPS and buffer-pool
usage are always info-level and never touch the overall status). -/
def baseStatusUpdates (th : Thresholds) (n : NodeData) : List (Severity → Severity) :=
  [connUtilStatusUpdate th n, bpHitStatusUpdate th n, slowQueriesStatusUpdate th n]

def applyUpdates (l : List (Severity → Severity)) (s : Severity) : Severity :=
  l.foldl (fun a f => f a) s

/-- Overall status of `BaseAnalyzer.analyze_node_performance`. -/
def baseNodeStatus (th : Thresholds) (n : NodeData) : Severity :=
  applyUpdates (baseStatusUpdates th n) .info

/-- Findings appended by `BaseAnalyzer.analyze_node_performance`, in
source order. -/
def baseNodeFindings (th : Thresholds) (n : NodeData) : List Finding :=
  (if calculate_connection_utilization n ≥ th.conn_critical then
     [{ severity := .critical, category := .capacity,
        title := "Connection utilization critical",
        metric_name := some "connection_utilization", node := some n.hostname }]
   else []) ++
  (if calculate_buffer_pool_hit_ratio n < th.bp_hit_critical then
     [{ severity := .critical, category := .performance,
        title := "Buffer pool hit ratio critical",
        metric_name := some "buffer_pool_hit_ratio", node := some n.hostname }]
   else []) ++
  (if calculate_slow_queries_per_hour n ≥ th.slow_critical then
     [{ severity := .critical, category := .performance,
        title := "High slow query rate",
        metric_name := some "slow_queries_per_hour", node := some n.hostname }]
   else [])

/-! ## Galera per-node extension
(src/analyzers/galera.py `GaleraAnalyzer.analyze_node_performance`) -/

def galeraWsrepReady (n : NodeData) : Bool :=
  upperStr ((get_wsrep_status n "wsrep_ready").getD "OFF") == "ON"

def galeraClusterStatus (n : NodeData) : String :=
  (get_wsrep_status n "wsrep_cluster_status").getD ""

def galeraLocalState (n : NodeData) : String :=
  (get_wsrep_status n "wsrep_local_state_comment").getD ""

def wsrepReadyStatusUpdate (n : NodeData) (s : Severity) : Severity :=
  if !(galeraWsrepReady n) then .critical else s

def wsrepPrimaryStatusUpdate (n : NodeData) (s : Severity) : Severity :=
  if galeraClusterStatus n ≠ "Primary" then .critical else s

def wsrepLocalStateStatusUpdate (n : NodeData) (s : Severity) : Severity :=
  if galeraLocalState n ≠ "Synced" ∧ galeraLocalState n ≠ "Donor/Desynced" then
    (if s ≠ .critical then .warning else s)
  else s

def flowControlStatusUpdate (th : Thresholds) (n : NodeData) (s : Severity) : Severity :=
  if calculate_galera_flow_control_paused n ≥ th.fc_critical then .critical
  else if calculate_galera_flow_control_paused n ≥ th.fc_warning then
    (if s ≠ .critical then .warning else s)
  else s

/-- Full Galera per-node check sequence: the base checks, then the
wsrep-health, local-state and flow-control checks (receive/send queue and
certification conflicts only set metric-level statuses and never touch the
node's overall status in the source). -/
def galeraStatusUpdates (th : Thresholds) (n : NodeData) : List (Severity → Severity) :=
  baseStatusUpdates th n ++
    [wsrepReadyStatusUpdate n, wsrepPrimaryStatusUpdate n,
     wsrepLocalStateStatusUpdate n, flowControlStatusUpdate th n]

def galeraNodeStatus (th : Thresholds) (n : NodeData) : Severity :=
  applyUpdates (galeraStatusUpdates th n) .info

/-! ## Replication per-node extension
(src/analyzers/replication.py `ReplicationAnalyzer.analyze_node_performance`) -/

def replicationStatusUpdate (th : Thresholds) (n : NodeData) (s : Severity) : Severity :=
  if n.role = .replica ∧ n.slave_status.isSome then
    if ¬(is_replication_running n).1 ∨ ¬(is_replication_running n).2 then .critical
    else
      match get_replication_lag n with
      | some lag =>
          if lag ≥ th.lag_critical then .critical
          else if lag ≥ th.lag_warning then (if s ≠ .critical then .warning else s)
          else s
      | none => s
  else s

def replicationStatusUpdates (th : Thresholds) (n : NodeData) : List (Severity → Severity) :=
  baseStatusUpdates th n ++ [replicationStatusUpdate th n]

def replicationNodeStatus (th : Thresholds) (n : NodeData) : Severity :=
  applyUpdates (replicationStatusUpdates th n) .info

/-! ## Load analysis (src/analyzers/base.py `analyze_load`) -/

structure LoadAnalysis where
  status : Severity
  total_queries_per_second : ℚ
  total_writes_per_second : ℚ
  total_reads_per_second : ℚ
  read_write_ratio : RatioValue
  total_current_connections : Int
  total_max_connections : Int
  peak_connections_used : Int
  can_handle_current_load : Bool
deriving Repr

/-- One iteration of the load-problem loop: the connection-utilization
branch clears `can_handle` and sets critical; the hit-ratio branch (an
independent, unguarded `if`) then sets warning — in the source these are
two consecutive `if` statements, so a hit-ratio breach overwrites a
critical set earlier in the same pass. -/
def loadProblemStep (p : Bool × Severity) (n : NodeData) : Bool × Severity :=
  let p1 := if calculate_connection_utilization n > 9/10 then (false, Severity.critical) else p
  if calculate_buffer_pool_hit_ratio n < 9/10 then (p1.1, Severity.warning) else p1

def analyze_load (req : ClusterReviewRequest) : LoadAnalysis :=
  let total_qps := (req.nodes.map calculate_queries_per_second).sum
  let total_writes := (req.nodes.map calculate_writes_per_second).sum
  let total_reads := (req.nodes.map calculate_reads_per_second).sum
  let total_current := (req.nodes.map (fun n => n.get_status_int "Threads_connected" 0)).sum
  let total_max := (req.nodes.map (fun n => n.get_variable_int "max_connections" 0)).sum
  let peak := req.nodes.foldl (fun a n => max a (n.get_status_int "Max_used_connections" 0)) 0
  let rw_ratio : RatioValue :=
    if total_writes > 0 then .finite (total_reads / total_writes)
    else if total_reads > 0 then .infinite else .finite 0
  let cs := req.nodes.foldl loadProblemStep (true, .info)
  { status := cs.2
    total_queries_per_second := total_qps
    total_writes_per_second := total_writes
    total_reads_per_second := total_reads
    read_write_ratio := rw_ratio
    total_current_connections := total_current
    total_max_connections := total_max
    peak_connections_used := peak
    can_handle_current_load := cs.1 }

/-! ## Galera architecture analysis
(src/analyzers/galera.py `GaleraAnalyzer.analyze_architecture`) -/

structure ArchitectureAssessment where
  topology_valid : Bool
  status : Severity
  node_count : Nat
  ha_capable : Bool
  quorum_capable : Bool
deriving Repr

def galeraNodesOf (req : ClusterReviewRequest) : List NodeData :=
  req.nodes.filter (fun n => n.role = .galera_node)

def galeraNodesToCheck (req : ClusterReviewRequest) : List NodeData :=
  if (galeraNodesOf req).isEmpty then req.nodes else galeraNodesOf req

/-- The distinct positive `wsrep_cluster_size` values collected by the
source (`if cluster_size > 0: cluster_sizes.add(...)`); a node reporting
0, a missing key or an unparseable value contributes nothing. -/
def galeraCollectedSizes (req : ClusterReviewRequest) : List Int :=
  ((galeraNodesToCheck req).filterMap (fun n =>
    let s := get_wsrep_status_int n "wsrep_cluster_size" 0
    if s > 0 then some s else none)).dedup

/-- The distinct non-empty `wsrep_cluster_status` values. -/
def galeraCollectedStatuses (req : ClusterReviewRequest) : List String :=
  ((galeraNodesToCheck req).filterMap (fun n =>
    let s := (get_wsrep_status n "wsrep_cluster_status").getD ""
    if s ≠ "" then some s else none)).dedup

/-- The distinct non-empty `wsrep_cluster_state_uuid` values. -/
def galeraCollectedUuids (req : ClusterReviewRequest) : List String :=
  ((galeraNodesToCheck req).filterMap (fun n =>
    let s := (get_wsrep_status n "wsrep_cluster_state_uuid").getD ""
    if s ≠ "" then some s else none)).dedup

def galeraAnalyzeArchitecture (req : ClusterReviewRequest) : ArchitectureAssessment :=
  let node_count := if (galeraNodesOf req).isEmpty then req.nodes.length
    else (galeraNodesOf req).length
  -- cluster-size check
  let status1 : Severity := if node_count < 3 then .warning else .info
  let valid1 : Bool := !(node_count < 3)
  let sizes := galeraCollectedSizes req
  let statuses := galeraCollectedStatuses req
  let uuids := galeraCollectedUuids req
  -- inconsistent cluster sizes
  let status2 := if sizes.length > 1 then Severity.critical else status1
  let valid2 := if sizes.length > 1 then false else valid1
  -- multiple cluster UUIDs
  let status3 := if uuids.length > 1 then Severity.critical else status2
  let valid3 := if uuids.length > 1 then false else valid2
  -- no Primary component
  let status4 := if ¬statuses.contains "Primary" ∧ ¬statuses.isEmpty then
    Severity.critical else status3
  { topology_valid := valid3
    status := status4
    node_count := node_count
    ha_capable := node_count ≥ 2
    quorum_capable := node_count ≥ 3 }

/-! ## Topology detection
(src/services/review_service.py `ReviewService.detect_topology`) -/

/-- `str(node.get_variable("wsrep_on", "OFF")).upper() == "ON"`. -/
def wsrepOnIndicator (n : NodeData) : Bool :=
  upperStr ((n.get_variable "wsrep_on").getD "OFF") == "ON"

/-- Python truthiness of `node.get_status("wsrep_cluster_size")`: missing
key is `None` (falsy), a present string is truthy iff non-empty. -/
def clusterSizeIndicator (n : NodeData) : Bool :=
  match n.get_status "wsrep_cluster_size" with
  | none => false
  | some s => s ≠ ""

def semiSyncIndicator (n : NodeData) : Bool :=
  upperStr ((n.get_variable "rpl_semi_sync_master_enabled").getD "OFF") == "ON" ||
  upperStr ((n.get_variable "rpl_semi_sync_slave_enabled").getD "OFF") == "ON"

/-- `detect_topology`: Galera indicators first; then replica presence and
semi-sync variables.  The source also computes `has_master` from
`master_status` but never uses it in the decision — it is reproduced here
(unused) for fidelity. -/
def detect_topology (req : ClusterReviewRequest) : TopologyType :=
  if req.nodes.any (fun n => wsrepOnIndicator n || clusterSizeIndicator n) then .galera
  else
    let _has_master := req.nodes.any (fun n => n.master_status.isSome)
    let has_replica := req.nodes.any (fun n => n.slave_status.isSome)
    let has_semi_sync := req.nodes.any semiSyncIndicator
    if has_replica then (if has_semi_sync then .semi_sync else .master_replica)
    else .standalone

/-! ## Sizing analyzer: resource-consistency check
(src/analyzers/config_analyzer.py `SizingAnalyzer.analyze`, lines 752-895) -/

/-- One entry of `node_resources_list`. -/
structure SizingNodeRes where
  hostname : String
  cpu_cores : Option Int
  ram_gb : Option ℚ
  disk_total_gb : Option ℚ
  disk_type : Option String
deriving Repr

/-- `getattr(node.system_resources, 'disk_type', None)`: the pydantic
`SystemResources` model declares NO `disk_type` field (and silently drops
one supplied in the request payload), so the `getattr` default applies and
the collected disk type is always `None`. -/
def nodeDiskType (_r : SystemResources) : Option String := none

def sizingNodeRes (n : NodeData) : SizingNodeRes :=
  match n.system_resources with
  | some r =>
      { hostname := n.hostname, cpu_cores := some r.cpu_cores,
        ram_gb := some r.ram_gb, disk_total_gb := some r.disk_total_gb,
        disk_type := nodeDiskType r }
  | none =>
      { hostname := n.hostname, cpu_cores := none, ram_gb := none,
        disk_total_gb := none, disk_type := none }

/-- One inconsistency entry (message/details text omitted). -/
structure Inconsistency where
  resource : String
  severity : String
deriving DecidableEq, Repr

/-- Resource-consistency result: `(is_consistent, inconsistencies)`.
`is_consistent` is cleared by any variation (including a disk-capacity
spread of 10% or less, for which no entry is appended). -/
def sizingResourceConsistency (req : ClusterReviewRequest) : Bool × List Inconsistency :=
  let resList := req.nodes.map sizingNodeRes
  let withRes := resList.filter (fun r => r.cpu_cores.isSome)
  if withRes.length ≥ 2 then
    let cpu_values := (withRes.filterMap (·.cpu_cores)).dedup
    let ram_values := (withRes.filterMap (·.ram_gb)).dedup
    let disk_values := ((withRes.filterMap (·.disk_total_gb)).filter (· ≠ 0)).dedup
    let disk_types := (withRes.filterMap (·.disk_type)).dedup
    let cpuInc : List Inconsistency :=
      if cpu_values.length > 1 then [{ resource := "cpu_cores", severity := "warning" }] else []
    let ramInc : List Inconsistency :=
      if ram_values.length > 1 then [{ resource := "ram_gb", severity := "warning" }] else []
    let diskInc : List Inconsistency :=
      if disk_values.length > 1 then
        let mx := disk_values.foldl max 0
        let mn := disk_values.foldl min mx
        if mx ≠ 0 ∧ (mx - mn) / mx > 1/10 then
          [{ resource := "disk_total_gb", severity := "warning" }]
        else []
      else []
    let typeInc : List Inconsistency :=
      if disk_types.length > 1 then [{ resource := "disk_type", severity := "critical" }] else []
    let consistent := !(cpu_values.length > 1) && !(ram_values.length > 1) &&
      !(disk_values.length > 1) && !(disk_types.length > 1)
    (consistent, cpuInc ++ ramInc ++ diskInc ++ typeInc)
  else (true, [])

/-! ## Configuration analyzer
(src/analyzers/config_analyzer.py `ConfigAnalyzer`)

Only the findings are embedded; the recommendations emitted by this
analyzer are not the subject of any stated property. -/

/-- Python `round(x, 1)`.  Mathlib `round` rounds ties up whereas Python
rounds ties to even; the two differ only at exact multiples of 0.05,
which no analyzed input produces. -/
def pyRound1 (q : ℚ) : ℚ := (round (q * 10) : ℤ) / 10

/-- Python truthiness of an optional int. -/
def optIntTruthy (o : Option Int) : Bool :=
  match o with
  | some v => v ≠ 0
  | none => false

def maxscaleTotalQueries (ms : MaxScaleConfig) : Int :=
  (ms.servers.map (fun s => s.queries.getD 0)).sum

/-- `query_pct` of one server inside `_calculate_load_distribution`:
recorded only when the overall total is positive and the server routed a
truthy query count. -/
def serverQueryPct (total : Int) (s : MaxScaleServer) : Option ℚ :=
  if total > 0 ∧ optIntTruthy s.queries then
    some (pyRound1 (((s.queries.getD 0 : Int) : ℚ) / (total : ℚ) * 100))
  else none

/-- The shares entering the balance comparison: servers with a recorded
share whose state does not contain "master". -/
def balanceQueryPcts (ms : MaxScaleConfig) : List ℚ :=
  let total := maxscaleTotalQueries ms
  ms.servers.filterMap (fun s =>
    match serverQueryPct total s with
    | some p =>
        if containsSubstr (lowerStr (s.state.getD "")) "master" then none else some p
    | none => none)

structure LoadDistribution where
  balanced : Bool
  imbalance_pct : ℚ
deriving Repr

/-- `_calculate_load_distribution` (balance verdict and imbalance only;
the per-server share table is recoverable from `serverQueryPct`). -/
def calculateLoadDistribution (ms : MaxScaleConfig) : LoadDistribution :=
  match balanceQueryPcts ms with
  | [] => { balanced := true, imbalance_pct := 0 }
  | [_] => { balanced := true, imbalance_pct := 0 }
  | p :: rest =>
      let mx := rest.foldl max p
      let mn := rest.foldl min p
      let imb := pyRound1 (mx - mn)
      { balanced := !(imb > 20), imbalance_pct := imb }

/-- `_analyze_servers` findings. -/
def maxscaleServersFindings (ms : MaxScaleConfig) : List Finding :=
  if ms.servers.isEmpty then
    [{ severity := .warning, category := .configuration, title := "No servers defined" }]
  else
    let down := ms.servers.filter (fun s =>
      match s.state with
      | some st => containsSubstr (lowerStr st) "down"
      | none => false)
    let maint := ms.servers.filter (fun s =>
      match s.state with
      | some st => ¬containsSubstr (lowerStr st) "down" ∧ containsSubstr (lowerStr st) "maintenance"
      | none => false)
    (if ¬down.isEmpty then
       [{ severity := .critical, category := .availability, title := "Servers down" }]
     else []) ++
    (if ¬maint.isEmpty then
       [{ severity := .warning, category := .availability, title := "Servers in maintenance" }]
     else [])

/-- `_analyze_services` findings (per service, in source order). -/
def maxscaleServicesFindings (topology : TopologyType) (ms : MaxScaleConfig) : List Finding :=
  if ms.services.isEmpty then
    [{ severity := .warning, category := .configuration, title := "No services defined" }]
  else
    ms.services.flatMap (fun sv =>
      (if topology = .galera ∧ lowerStr sv.router = "readconnroute" then
         [{ severity := .info, category := .configuration,
            title := "ReadConnRoute with Galera", node := some sv.name }]
       else []) ++
      (if lowerStr sv.router = "readwritesplit" ∧ sv.master_accept_reads = some false then
         [{ severity := .info, category := .configuration,
            title := "Master not accepting reads", node := some sv.name }]
       else []) ++
      (if sv.servers.isEmpty then
         [{ severity := .warning, category := .configuration,
            title := "Service has no servers", node := some sv.name }]
       else []))

/-- `_analyze_services` recommendations (transaction replay). -/
def maxscaleServicesRecs (ms : MaxScaleConfig) : List Recommendation :=
  if ms.services.isEmpty then []
  else
    ms.services.flatMap (fun sv =>
      if lowerStr sv.router = "readwritesplit" ∧ sv.transaction_replay = none then
        [{ priority := 3, category := .availability, title := "Consider transaction replay",
           action := "Enable transaction_replay=true for automatic retry on master failure" }]
      else [])

def galeraCriteriaOk (c : String) : Bool :=
  upperStr c == "ADAPTIVE_ROUTING" || upperStr c == "LEAST_GLOBAL_CONNECTIONS" ||
    upperStr c == "LEAST_ROUTER_CONNECTIONS"

/-- `_analyze_routing` findings. -/
def maxscaleRoutingFindings (topology : TopologyType) (ms : MaxScaleConfig)
    (nodeCount : Nat) : List Finding :=
  (if ms.servers.length < nodeCount then
     [{ severity := .warning, category := .configuration, title := "Not all nodes in MaxScale" }]
   else []) ++
  (if topology = .galera then
     ms.services.flatMap (fun sv =>
       match sv.slave_selection_criteria with
       | some c =>
           if ¬galeraCriteriaOk c then
             [{ severity := .info, category := .configuration,
                title := "Review slave selection", node := some sv.name }]
           else []
       | none => [])
   else [])

/-- `_analyze_routing` recommendations. -/
def maxscaleRoutingRecs (ms : MaxScaleConfig) : List Recommendation :=
  if ms.servers.length = 1 then
    [{ priority := 2, category := .availability, title := "Add more backend servers",
       action := "Add additional backend servers for failover capability" }]
  else []

/-- `_analyze_traffic` findings. -/
def maxscaleTrafficFindings (ms : MaxScaleConfig) : List Finding :=
  ms.services.flatMap (fun sv =>
    (match sv.replayed_transactions with
     | some r =>
         if r ≠ 0 ∧ r > 0 then
           [{ severity := if r < 100 then .info else .warning, category := .availability,
              title := "Transaction replays detected", node := some sv.name }]
         else []
     | none => []) ++
    (if optIntTruthy sv.route_master ∧ optIntTruthy sv.route_slave then
       let m := sv.route_master.getD 0
       let sl := sv.route_slave.getD 0
       let total := m + sl
       let write_pct : ℚ := if total > 0 then (m : ℚ) / (total : ℚ) * 100 else 0
       [{ severity := .info, category := .performance,
          title := "Traffic distribution for", node := some sv.name }] ++
       (if write_pct > 50 then
          [{ severity := .info, category := .performance,
             title := "Write-heavy workload", node := some sv.name }]
        else [])
     else []))

/-- `_analyze_traffic` recommendations (connection churn). -/
def maxscaleTrafficRecs (ms : MaxScaleConfig) : List Recommendation :=
  if optIntTruthy ms.current_connections &&
      optIntTruthy ms.total_connections &&
      (match ms.uptime_seconds with | some u => decide (u > 3600) | none => false) then
    let u := ms.uptime_seconds.getD 1
    let conn_per_hour := ((ms.total_connections.getD 0 : Int) : ℚ) / (u : ℚ) * 3600
    if conn_per_hour > ((ms.current_connections.getD 0 : Int) : ℚ) * 100 then
      [{ priority := 2, category := .performance, title := "High connection churn detected",
         action := "Implement connection pooling in the application" }]
    else []
  else []

/-- `servers_with_queries` of `_analyze_load_distribution`. -/
def serversWithQueries (ms : MaxScaleConfig) : List (String × Int × Option String) :=
  ms.servers.filterMap (fun s =>
    match s.queries with
    | some q => if q ≠ 0 then some (s.name, q, s.state) else none
    | none => none)

/-- `slave_queries`: the slave-state subset. -/
def slaveQueries (ms : MaxScaleConfig) : List (String × Int) :=
  (serversWithQueries ms).filterMap (fun e =>
    match e.2.2 with
    | some st => if containsSubstr (lowerStr st) "slave" then some (e.1, e.2.1) else none
    | none => none)

/-- Deviation of one slave from the expected per-slave average. -/
def slaveDeviation (expected : ℚ) (q : Int) : ℚ :=
  if expected > 0 then |(q : ℚ) - expected| / expected * 100 else 0

/-- `expected_per_slave = slave_total / len(slave_queries)`. -/
def slaveExpected (ms : MaxScaleConfig) : ℚ :=
  ((((slaveQueries ms).map (fun x => x.2)).sum : Int) : ℚ) /
    (((slaveQueries ms).length : Nat) : ℚ)

/-- `_analyze_load_distribution` findings: a warning per slave deviating
more than 30% from the slave average, then a warning per running server
with exactly zero routed queries. -/
def maxscaleLoadDistFindings (ms : MaxScaleConfig) : List Finding :=
  (if (serversWithQueries ms).length > 1 ∧ maxscaleTotalQueries ms > 0 ∧
      (slaveQueries ms).length > 1 then
    (slaveQueries ms).flatMap (fun sq =>
      if slaveDeviation (slaveExpected ms) sq.2 > 30 then
        [{ severity := .warning, category := .performance,
           title := "Unbalanced read distribution", node := some sq.1 }]
      else [])
  else []) ++
    ms.servers.filterMap (fun s =>
      if (match s.state with
          | some st => containsSubstr (lowerStr st) "running"
          | none => false) && (s.queries == some 0) then
        some { severity := .warning, category := .configuration,
               title := "Server receiving no queries", node := some s.name }
      else none)

/-- `_analyze_load_distribution` recommendations. -/
def maxscaleLoadDistRecs (ms : MaxScaleConfig) : List Recommendation :=
  if (serversWithQueries ms).length > 1 ∧ maxscaleTotalQueries ms > 0 ∧
      (slaveQueries ms).length > 1 then
    (slaveQueries ms).flatMap (fun sq =>
      if slaveDeviation (slaveExpected ms) sq.2 > 30 then
        [{ priority := 3, category := .performance,
           title := "Review load balancing configuration",
           action := "Review slave_selection_criteria setting. Consider ADAPTIVE_ROUTING." }]
      else [])
  else []

/-- All findings of `MaxScaleAnalyzer.analyze`, in call order. -/
def maxscaleAnalyzeFindings (ms : MaxScaleConfig) (req : ClusterReviewRequest) : List Finding :=
  maxscaleServersFindings ms ++ maxscaleServicesFindings req.topology_type ms ++
    maxscaleRoutingFindings req.topology_type ms req.nodes.length ++
    maxscaleTrafficFindings ms ++ maxscaleLoadDistFindings ms

/-- All recommendations of `MaxScaleAnalyzer.analyze`, in call order. -/
def maxscaleAnalyzeRecs (ms : MaxScaleConfig) : List Recommendation :=
  maxscaleServicesRecs ms ++ maxscaleRoutingRecs ms ++ maxscaleTrafficRecs ms ++
    maxscaleLoadDistRecs ms

/-! ## Log pattern classifier (src/analyzers/log_analyzer.py)

The compiled regular expressions of `MariaDBLogAnalyzer.PATTERNS` use only
literal text, the single-character wildcard `.` and the gap `.*`, always
under `re.IGNORECASE`; they are embedded as alternation lists over a tiny
pattern AST matched against the lower-cased line. -/

inductive RPat where
  | lit (s : String)
  | dot
  | many
deriving Repr

/-- Match a pattern sequence at the start of `cs` (consuming a prefix). -/
def matchSeq : List RPat → List Char → Bool
  | [], _ => true
  | .lit s :: ps, cs =>
      if s.toList.isPrefixOf cs then matchSeq ps (cs.drop s.length) else false
  | .dot :: ps, cs =>
      match cs with
      | [] => false
      | _ :: tl => matchSeq ps tl
  | .many :: ps, cs => (cs.tails).any (fun t => matchSeq ps t)

/-- `re.search` with `re.IGNORECASE`: some alternative matches at some
position of the lower-cased line. -/
def reSearch (alts : List (List RPat)) (line : String) : Bool :=
  let cs := line.toList.map Char.toLower
  alts.any (fun alt => (cs.tails).any (fun t => matchSeq alt t))

def errorPat : List (List RPat) :=
  [[.lit "[error]"], [.lit "[error]"], [.lit "error:"]]
def warningPat : List (List RPat) :=
  [[.lit "[warning]"], [.lit "[warning]"], [.lit "warning:"]]
def sstPat : List (List RPat) :=
  [[.lit "sst"], [.lit "state transfer"], [.lit "state transfer"]]
def istPat : List (List RPat) :=
  [[.lit "ist"], [.lit "incremental state transfer"]]
def flowControlPat : List (List RPat) :=
  [[.lit "flow", .dot, .lit "control"], [.lit "flow-control"]]
def inconsistentPat : List (List RPat) :=
  [[.lit "inconsistent"], [.lit "inconsistent"], [.lit "inconsistency"]]
def innodbBufferWarningPat : List (List RPat) :=
  [[.lit "buffer", .dot, .lit "pool", .many, .lit "warning"], [.lit "cannot allocate"],
   [.lit "memory", .many, .lit "exhausted"], [.lit "oom"],
   [.lit "out", .dot, .lit "of", .dot, .lit "memory"]]
def innodbOomPat : List (List RPat) :=
  [[.lit "innodb", .many, .lit "cannot allocate"], [.lit "innodb", .many, .lit "out of memory"],
   [.lit "mmap", .many, .lit "failed"]]
def innodbCorruptionPat : List (List RPat) :=
  [[.lit "corrupt"], [.lit "corruption"], [.lit "checksum", .many, .lit "mismatch"],
   [.lit "page", .many, .lit "invalid"]]
def innodbRecoveryPat : List (List RPat) :=
  [[.lit "innodb", .many, .lit "recovery"], [.lit "crash", .dot, .lit "recovery"],
   [.lit "starting", .dot, .lit "crash", .dot, .lit "recovery"]]
def crashPat : List (List RPat) :=
  [[.lit "crash"], [.lit "crash"], [.lit "segfault"], [.lit "sigsegv"], [.lit "sigabrt"],
   [.lit "sigkill"], [.lit "assertion", .many, .lit "fail"],
   [.lit "mysqld", .many, .lit "got", .many, .lit "signal"]]
def startupPat : List (List RPat) :=
  [[.lit "starting", .many, .lit "mysqld"], [.lit "mariadb", .many, .lit "starting"],
   [.lit "ready for connections"], [.lit "server", .many, .lit "socket", .many, .lit "created"]]
def unexpectedShutdownPat : List (List RPat) :=
  [[.lit "unexpected"], [.lit "abnormal"], [.lit "unclean"],
   [.lit "not", .many, .lit "graceful"], [.lit "killed"], [.lit "sigterm"], [.lit "sigkill"]]
def oomKillerPat : List (List RPat) :=
  [[.lit "oom", .dot, .lit "killer"],
   [.lit "out", .dot, .lit "of", .dot, .lit "memory", .many, .lit "killed"],
   [.lit "invoked", .dot, .lit "oom-killer"], [.lit "memory", .dot, .lit "cgroup"]]
def replicationErrorPat : List (List RPat) :=
  [[.lit "slave", .many, .lit "error"], [.lit "replication", .many, .lit "error"],
   [.lit "last_error"], [.lit "slave_io_running", .many, .lit "no"],
   [.lit "slave_sql_running", .many, .lit "no"]]
def binlogErrorPat : List (List RPat) :=
  [[.lit "binlog", .many, .lit "error"], [.lit "binary", .dot, .lit "log", .many, .lit "error"],
   [.lit "relay", .dot, .lit "log", .many, .lit "error"],
   [.lit "could not", .many, .lit "binlog"]]
def gtidErrorPat : List (List RPat) :=
  [[.lit "gtid", .many, .lit "error"], [.lit "gtid", .many, .lit "mismatch"],
   [.lit "gtid", .many, .lit "gap"], [.lit "gtid", .many, .lit "skip"]]
def slaveStoppedPat : List (List RPat) :=
  [[.lit "slave", .many, .lit "stopped"],
   [.lit "slave", .many, .lit "thread", .many, .lit "exiting"],
   [.lit "stopping", .many, .lit "slave"]]
def maxConnectionsPat : List (List RPat) :=
  [[.lit "max_connections"], [.lit "too", .dot, .lit "many", .dot, .lit "connections"],
   [.lit "connection", .many, .lit "refused"], [.lit "error", .many, .lit "1040"]]
def connectionRefusedPat : List (List RPat) :=
  [[.lit "connection", .many, .lit "refused"], [.lit "access", .dot, .lit "denied"],
   [.lit "error", .many, .lit "1045"], [.lit "host", .many, .lit "blocked"]]
def connectionAbortPat : List (List RPat) :=
  [[.lit "aborted", .dot, .lit "connection"],
   [.lit "got", .dot, .lit "an", .dot, .lit "error", .dot, .lit "reading"],
   [.lit "communication", .dot, .lit "packets"]]
def sslErrorPat : List (List RPat) :=
  [[.lit "ssl", .many, .lit "error"], [.lit "tls", .many, .lit "error"],
   [.lit "certificate", .many, .lit "error"], [.lit "handshake", .many, .lit "fail"]]
def hostBlockedPat : List (List RPat) :=
  [[.lit "host", .many, .lit "blocked"],
   [.lit "blocked", .dot, .lit "because", .dot, .lit "of", .dot, .lit "many", .dot,
    .lit "connection", .dot, .lit "errors"]]
def diskFullPat : List (List RPat) :=
  [[.lit "table", .many, .lit "is full"], [.lit "disk full"], [.lit "no space"],
   [.lit "ha_err_record_file_full"], [.lit "errno", .many, .lit "28"]]
def diskIoErrorPat : List (List RPat) :=
  [[.lit "disk", .many, .lit "i/o", .many, .lit "error"], [.lit "read", .many, .lit "error"],
   [.lit "write", .many, .lit "error"], [.lit "pread", .many, .lit "failed"],
   [.lit "pwrite", .many, .lit "failed"]]
def deadlockPat : List (List RPat) :=
  [[.lit "deadlock"], [.lit "deadlock"]]
def lockWaitPat : List (List RPat) :=
  [[.lit "lock", .dot, .lit "wait", .dot, .lit "timeout"],
   [.lit "waiting", .dot, .lit "for", .many, .lit "lock"]]
def longSemaphorePat : List (List RPat) :=
  [[.lit "long", .dot, .lit "semaphore", .dot, .lit "wait"],
   [.lit "semaphore", .dot, .lit "wait"], [.lit "waited", .many, .lit "seconds"]]

/-- The event-list fields of `LogSummary` (each holds a list of event
dicts in the source; only its length matters to every downstream
consumer, so the embedding keeps per-bucket counters). -/
inductive Bucket where
  | sst_events | ist_events | flow_control_events | connection_errors | state_changes
  | disk_issues | inconsistency_events | innodb_buffer_issues | innodb_oom_events
  | innodb_corruption_events | crash_events | startup_events | unexpected_shutdown_events
  | oom_killer_events | replication_errors | binlog_errors | gtid_errors
  | slave_stopped_events | max_connection_errors | connection_refused_events
  | host_blocked_events | ssl_errors | deadlock_events | lock_wait_events
  | long_semaphore_events
deriving DecidableEq, Repr

structure LogSummary where
  total_lines : Nat := 0
  error_count : Nat := 0
  warning_count : Nat := 0
  /-- The `critical_events` timeline, kept as the ordered list of its
  `type` tags. -/
  critical_events : List String := []
  buckets : Bucket → Nat := fun _ => 0

def bumpBucket (b : Bucket) (f : Bucket → Nat) : Bucket → Nat :=
  fun x => if x = b then f x + 1 else f x

/-- One `if pattern: bucket.append(event) [; critical_events.append(...)]`
statement: a guard on the line, the bucket receiving the event, and the
`type` tag appended to the critical-events timeline when present. -/
structure LogRule where
  cond : String → Bool
  bucket : Bucket
  tag : Option String := none

def applyLogRule (line : String) (s : LogSummary) (r : LogRule) : LogSummary :=
  if r.cond line then
    { s with
      buckets := bumpBucket r.bucket s.buckets
      critical_events := s.critical_events ++
        (match r.tag with | some t => [t] | none => []) }
  else s

/-- `_categorize_error`, in source order. -/
def categorizeErrorRules : List LogRule :=
  [{ cond := reSearch diskFullPat, bucket := .disk_issues, tag := some "disk_full" },
   { cond := reSearch diskIoErrorPat, bucket := .disk_issues, tag := some "disk_io_error" },
   { cond := reSearch inconsistentPat, bucket := .inconsistency_events,
     tag := some "inconsistency" },
   { cond := reSearch connectionAbortPat, bucket := .connection_errors },
   { cond := fun l => reSearch innodbBufferWarningPat l || reSearch innodbOomPat l,
     bucket := .innodb_buffer_issues, tag := some "innodb_memory" },
   { cond := reSearch innodbOomPat, bucket := .innodb_oom_events, tag := some "innodb_oom" },
   { cond := reSearch innodbCorruptionPat, bucket := .innodb_corruption_events,
     tag := some "innodb_corruption" },
   { cond := reSearch crashPat, bucket := .crash_events, tag := some "crash" },
   { cond := reSearch oomKillerPat, bucket := .oom_killer_events, tag := some "oom_killer" },
   { cond := reSearch replicationErrorPat, bucket := .replication_errors,
     tag := some "replication_error" },
   { cond := reSearch binlogErrorPat, bucket := .binlog_errors, tag := some "binlog_error" },
   { cond := reSearch gtidErrorPat, bucket := .gtid_errors },
   { cond := reSearch slaveStoppedPat, bucket := .slave_stopped_events },
   { cond := reSearch maxConnectionsPat, bucket := .max_connection_errors,
     tag := some "max_connections" },
   { cond := reSearch connectionRefusedPat, bucket := .connection_refused_events },
   { cond := reSearch hostBlockedPat, bucket := .host_blocked_events,
     tag := some "host_blocked" },
   { cond := reSearch sslErrorPat, bucket := .ssl_errors },
   { cond := reSearch deadlockPat, bucket := .deadlock_events },
   { cond := reSearch lockWaitPat, bucket := .lock_wait_events },
   { cond := reSearch longSemaphorePat, bucket := .long_semaphore_events,
     tag := some "long_semaphore" }]

/-- `_check_galera_events`, in source order (the InnoDB-recovery rule
appends a typed event into `crash_events` but not into the
critical-events timeline). -/
def galeraEventRules : List LogRule :=
  [{ cond := fun l => reSearch sstPat l && containsSubstr (upperStr l) "SST",
     bucket := .sst_events },
   { cond := fun l => reSearch istPat l && containsSubstr (upperStr l) "IST",
     bucket := .ist_events },
   { cond := reSearch flowControlPat, bucket := .flow_control_events },
   { cond := fun l => containsSubstr (lowerStr l) "state change" || containsSubstr l "Shifting",
     bucket := .state_changes },
   { cond := reSearch startupPat, bucket := .startup_events },
   { cond := fun l => reSearch unexpectedShutdownPat l && reSearch errorPat l,
     bucket := .unexpected_shutdown_events },
   { cond := reSearch innodbRecoveryPat, bucket := .crash_events }]

def categorizeError (line : String) (s : LogSummary) : LogSummary :=
  categorizeErrorRules.foldl (applyLogRule line) s

def checkGaleraEvents (line : String) (s : LogSummary) : LogSummary :=
  galeraEventRules.foldl (applyLogRule line) s

/-- The per-line body of `analyze_log_content`: blank lines are skipped;
an error-pattern match increments `error_count` and categorizes; a
warning-pattern match increments `warning_count`; Galera/general events
are checked for every non-blank line. -/
def processLine (s : LogSummary) (line : String) : LogSummary :=
  if (listStrip line.toList).isEmpty then s
  else
    let s1 := if reSearch errorPat line then
      categorizeError line { s with error_count := s.error_count + 1 } else s
    let s2 := if reSearch warningPat line then
      { s1 with warning_count := s1.warning_count + 1 } else s1
    checkGaleraEvents line s2

/-- The summary produced by `MariaDBLogAnalyzer.analyze_log_content`. -/
def analyzeLogSummary (content : String) : LogSummary :=
  let lines := splitLines content
  lines.foldl processLine { total_lines := lines.length }

/-- Findings of `_generate_findings`, in source order; the interpolated
log name is carried in the `node` field. -/
def generateLogFindings (s : LogSummary) (log_name : String) : List Finding :=
  (if 0 < s.buckets .disk_issues then
     [{ severity := .critical, category := .storage,
        title := "Disk space issues detected in", node := some log_name }] else []) ++
  (if 0 < s.buckets .innodb_buffer_issues then
     [{ severity := .critical, category := .resource,
        title := "InnoDB buffer pool issues in", node := some log_name }] else []) ++
  (if 0 < s.buckets .innodb_oom_events then
     [{ severity := .critical, category := .resource,
        title := "InnoDB out-of-memory events in", node := some log_name }] else []) ++
  (if 0 < s.buckets .innodb_corruption_events then
     [{ severity := .critical, category := .storage,
        title := "InnoDB corruption detected in", node := some log_name }] else []) ++
  (if 0 < s.buckets .crash_events then
     [{ severity := .critical, category := .availability,
        title := "Crash/recovery events detected in", node := some log_name }] else []) ++
  (if 0 < s.buckets .oom_killer_events then
     [{ severity := .critical, category := .resource,
        title := "OOM killer events detected in", node := some log_name }] else []) ++
  (if 5 < s.buckets .startup_events then
     [{ severity := .warning, category := .availability,
        title := "Frequent restarts detected in", node := some log_name }] else []) ++
  (if 0 < s.buckets .replication_errors then
     [{ severity := .critical, category := .replication,
        title := "Replication errors in", node := some log_name }] else []) ++
  (if 0 < s.buckets .binlog_errors then
     [{ severity := .critical, category := .replication,
        title := "Binary log errors in", node := some log_name }] else []) ++
  (if 0 < s.buckets .gtid_errors then
     [{ severity := .warning, category := .replication,
        title := "GTID errors in", node := some log_name }] else []) ++
  (if 0 < s.buckets .slave_stopped_events then
     [{ severity := .warning, category := .replication,
        title := "Slave stopped events in", node := some log_name }] else []) ++
  (if 0 < s.buckets .max_connection_errors then
     [{ severity := .critical, category := .capacity,
        title := "Max connections exceeded in", node := some log_name }] else []) ++
  (if 0 < s.buckets .host_blocked_events then
     [{ severity := .critical, category := .security,
        title := "Hosts blocked in", node := some log_name }] else []) ++
  (if 0 < s.buckets .ssl_errors then
     [{ severity := .warning, category := .security,
        title := "SSL/TLS errors in", node := some log_name }] else []) ++
  (if 100 < s.buckets .connection_errors then
     [{ severity := .warning, category := .network,
        title := "High connection abort rate in", node := some log_name }] else []) ++
  (if 0 < s.buckets .deadlock_events then
     [{ severity := .warning, category := .performance,
        title := "Deadlocks detected in", node := some log_name }] else []) ++
  (if 0 < s.buckets .lock_wait_events then
     [{ severity := .warning, category := .performance,
        title := "Lock wait timeouts in", node := some log_name }] else []) ++
  (if 0 < s.buckets .long_semaphore_events then
     [{ severity := .warning, category := .performance,
        title := "Long semaphore waits in", node := some log_name }] else []) ++
  (if 0 < s.buckets .inconsistency_events then
     [{ severity := .critical, category := .galera,
        title := "Galera inconsistency detected in", node := some log_name }] else []) ++
  (if 3 < s.buckets .sst_events then
     [{ severity := .warning, category := .galera,
        title := "Frequent SST events in", node := some log_name }] else []) ++
  (if 10 < s.buckets .flow_control_events then
     [{ severity := .warning, category := .performance,
        title := "Flow control activity in", node := some log_name }] else []) ++
  [{ severity := .info, category := .general,
     title := "Log summary for", node := some log_name }]

/-- Recommendations of `_generate_findings`, in source order. -/
def generateLogRecs (s : LogSummary) : List Recommendation :=
  (if 0 < s.buckets .disk_issues then
     [{ priority := 1, category := .storage, title := "Address disk space issues immediately",
        action := "1. Check disk space with df -h\n2. Identify large tables\n3. Clean up old data or expand storage" }]
   else []) ++
  (if 0 < s.buckets .innodb_buffer_issues then
     [{ priority := 1, category := .resource, title := "Review InnoDB buffer pool configuration",
        action := "1. Check innodb_buffer_pool_size vs available RAM\n2. Monitor memory usage\n3. Consider reducing buffer pool or adding RAM" }]
   else []) ++
  (if 0 < s.buckets .innodb_corruption_events then
     [{ priority := 1, category := .storage, title := "Investigate InnoDB corruption immediately",
        action := "1. Run CHECK TABLE on affected tables\n2. Check disk health (SMART status)\n3. Consider restoring from backup if severe" }]
   else []) ++
  (if 0 < s.buckets .crash_events then
     [{ priority := 1, category := .availability, title := "Investigate MariaDB crashes",
        action := "1. Check for segfaults in system logs\n2. Review memory usage patterns\n3. Check for known bugs in MariaDB version" }]
   else []) ++
  (if 0 < s.buckets .oom_killer_events then
     [{ priority := 1, category := .resource, title := "Address memory exhaustion",
        action := "1. Reduce innodb_buffer_pool_size\n2. Add swap space\n3. Increase server RAM\n4. Check for memory leaks" }]
   else []) ++
  (if 0 < s.buckets .replication_errors then
     [{ priority := 1, category := .replication, title := "Fix replication errors",
        action := "1. Check SHOW SLAVE STATUS\\G\n2. Identify and fix the error\n3. Consider pt-table-sync for data drift" }]
   else []) ++
  (if 0 < s.buckets .max_connection_errors then
     [{ priority := 1, category := .capacity,
        title := "Increase max_connections or implement pooling",
        action := "1. Increase max_connections\n2. Implement connection pooling\n3. Review application connection handling" }]
   else []) ++
  (if 0 < s.buckets .host_blocked_events then
     [{ priority := 2, category := .security, title := "Investigate blocked hosts",
        action := "1. Run FLUSH HOSTS to unblock\n2. Increase max_connect_errors\n3. Investigate source of failed connections" }]
   else []) ++
  (if 0 < s.buckets .deadlock_events then
     [{ priority := 3, category := .performance, title := "Investigate deadlocks",
        action := "1. Enable innodb_print_all_deadlocks\n2. Review transaction isolation levels\n3. Optimize transaction ordering" }]
   else []) ++
  (if 3 < s.buckets .sst_events then
     [{ priority := 2, category := .galera, title := "Enable gcache to allow IST instead of SST",
        action := "Set gcache.size to 1G or higher based on write volume" }]
   else [])

/-- Full `analyze_log_content` result: summary, findings, recommendations. -/
def analyzeLogContent (content : String) (log_name : String) :
    LogSummary × List Finding × List Recommendation :=
  let s := analyzeLogSummary content
  (s, generateLogFindings s log_name, generateLogRecs s)

/-! ## Statement-support definitions -/

/-- Sanity conditions on the counters a snapshot reports: the parsed
counters are non-negative, the uptime is non-negative, and the buffer pool
never served more reads from disk than it received read requests.  Every
physically produced `SHOW GLOBAL STATUS` snapshot satisfies these. -/
def metricCountersOk (n : NodeData) : Prop :=
  0 ≤ n.effectiveUptime ∧
  0 ≤ n.get_status_int "Questions" 0 ∧
  0 ≤ n.get_status_int "Com_insert" 0 ∧
  0 ≤ n.get_status_int "Com_update" 0 ∧
  0 ≤ n.get_status_int "Com_delete" 0 ∧
  0 ≤ n.get_status_int "Com_replace" 0 ∧
  0 ≤ n.get_status_int "Com_select" 0 ∧
  0 ≤ n.get_status_int "Max_used_connections" 0 ∧
  0 ≤ n.get_variable_int "max_connections" 1 ∧
  0 ≤ n.get_status_int "Slow_queries" 0 ∧
  0 ≤ n.get_status_int "Aborted_connects" 0 ∧
  0 ≤ n.get_status_int "Innodb_buffer_pool_reads" 0 ∧
  n.get_status_int "Innodb_buffer_pool_reads" 0 ≤
    n.get_status_int "Innodb_buffer_pool_read_requests" 1 ∧
  0 ≤ n.get_status_int "Innodb_buffer_pool_pages_data" 0 ∧
  0 ≤ n.get_status_int "Innodb_buffer_pool_pages_total" 1

instance (n : NodeData) : Decidable (metricCountersOk n) := by
  unfold metricCountersOk; infer_instance

/-- Totality / range conclusion for the metric derivation library: every
function yields a finite non-negative rational (the hit ratio also at most
1), with the documented sentinels for a zero read-request denominator and
for the read/write ratio. -/
def metricDerivationConclusion (n : NodeData) : Prop :=
  0 ≤ calculate_queries_per_second n ∧
  0 ≤ calculate_writes_per_second n ∧
  0 ≤ calculate_reads_per_second n ∧
  0 ≤ calculate_connection_utilization n ∧
  0 ≤ calculate_buffer_pool_hit_ratio n ∧
  calculate_buffer_pool_hit_ratio n ≤ 1 ∧
  0 ≤ calculate_buffer_pool_usage n ∧
  0 ≤ calculate_slow_queries_per_hour n ∧
  0 ≤ calculate_aborted_connections_per_hour n ∧
  (∀ q : ℚ, calculate_read_write_ratio n = .finite q → 0 ≤ q) ∧
  (n.get_status_int "Innodb_buffer_pool_read_requests" 1 = 0 →
    calculate_buffer_pool_hit_ratio n = 1) ∧
  (writeCounterSum n = 0 ∧ 0 < n.get_status_int "Com_select" 0 →
    calculate_read_write_ratio n = .infinite) ∧
  (writeCounterSum n = 0 ∧ n.get_status_int "Com_select" 0 = 0 →
    calculate_read_write_ratio n = .finite 0)

/-- Snapshot whose buffer pool reports more disk reads than read
requests. -/
def nodeHitRatioNeg : NodeData :=
  { global_status := [("Innodb_buffer_pool_reads", "200"),
                      ("Innodb_buffer_pool_read_requests", "100")] }

/-- Healthy example snapshot (the documented request example of
src/models/input.py). -/
def nodeHealthyExample : NodeData :=
  { hostname := "node1", role := .galera_node,
    global_status := [("Questions", "1000000"), ("Uptime", "86400"),
      ("Threads_connected", "50"), ("Innodb_buffer_pool_reads", "50"),
      ("Innodb_buffer_pool_read_requests", "10000")],
    global_variables := [("max_connections", "500")] }

/-- No node shows a Galera indicator (`wsrep_on` variable, truthy
`wsrep_cluster_size` status) and no node carries a slave-status map. -/
def noReplicationIndicators (req : ClusterReviewRequest) : Prop :=
  ∀ n ∈ req.nodes,
    wsrepOnIndicator n = false ∧ clusterSizeIndicator n = false ∧ n.slave_status = none

instance (req : ClusterReviewRequest) : Decidable (noReplicationIndicators req) := by
  unfold noReplicationIndicators; infer_instance

/-- Request whose single node carries a master-status map and semi-sync
master enabled, but no Galera or slave-status indicator. -/
def reqMasterOnly : ClusterReviewRequest :=
  { topology_type := .master_replica,
    nodes := [{ hostname := "m1", role := .master,
                master_status := some [("File", "mysql-bin.000001"), ("Position", "12345")],
                global_variables := [("rpl_semi_sync_master_enabled", "ON")] }] }

/-- A per-check status update never lowers the running severity and keeps
critical absorbing. -/
def escalationMonotone (f : Severity → Severity) : Prop :=
  (∀ s, sevLe s (f s)) ∧ f .critical = .critical

/-- Connection utilization at or above the critical threshold. -/
def connCriticalBreach (th : Thresholds) (n : NodeData) : Prop :=
  calculate_connection_utilization n ≥ th.conn_critical

/-- Connection utilization in the warning band only. -/
def connWarningOnlyBreach (th : Thresholds) (n : NodeData) : Prop :=
  th.conn_warning ≤ calculate_connection_utilization n ∧
    calculate_connection_utilization n < th.conn_critical

/-- Buffer-pool hit ratio below the critical threshold. -/
def bpCriticalBreach (th : Thresholds) (n : NodeData) : Prop :=
  calculate_buffer_pool_hit_ratio n < th.bp_hit_critical

/-- Buffer-pool hit ratio in the warning band only. -/
def bpWarningOnlyBreach (th : Thresholds) (n : NodeData) : Prop :=
  th.bp_hit_critical ≤ calculate_buffer_pool_hit_ratio n ∧
    calculate_buffer_pool_hit_ratio n < th.bp_hit_warning

/-- Slow-query rate at or above the critical threshold. -/
def slowCriticalBreach (th : Thresholds) (n : NodeData) : Prop :=
  calculate_slow_queries_per_hour n ≥ th.slow_critical

/-- The finding appended by the base analyzer on a critical
connection-utilization breach. -/
def connCriticalFinding (n : NodeData) : Finding :=
  { severity := .critical, category := .capacity, title := "Connection utilization critical",
    metric_name := some "connection_utilization", node := some n.hostname }

/-- The finding appended on a critical buffer-pool hit-ratio breach. -/
def bpCriticalFinding (n : NodeData) : Finding :=
  { severity := .critical, category := .performance, title := "Buffer pool hit ratio critical",
    metric_name := some "buffer_pool_hit_ratio", node := some n.hostname }

/-- The finding appended on a critical slow-query breach. -/
def slowCriticalFinding (n : NodeData) : Finding :=
  { severity := .critical, category := .performance, title := "High slow query rate",
    metric_name := some "slow_queries_per_hour", node := some n.hostname }

/-- Node whose peak connections sit at 95% of max_connections. -/
def nodeConnHot : NodeData :=
  { hostname := "hot1",
    global_status := [("Max_used_connections", "95")],
    global_variables := [("max_connections", "100")] }

/-- Node whose only breach is a critical slow-query rate (1000 per hour
against the default critical threshold of 500). -/
def nodeSlowOnly : NodeData :=
  { hostname := "slow1",
    global_status := [("Slow_queries", "1000"), ("Uptime", "3600")] }

/-- The `can_handle` component of the load-problem loop. -/
def loadCanFold (l : List NodeData) (b : Bool) : Bool :=
  l.foldl (fun a n => if calculate_connection_utilization n > 9/10 then false else a) b

/-- The `status` component of the load-problem loop. -/
def loadStatusFold (l : List NodeData) (s : Severity) : Severity :=
  l.foldl (fun a n =>
    if calculate_buffer_pool_hit_ratio n < 9/10 then .warning
    else if calculate_connection_utilization n > 9/10 then .critical
    else a) s

/-- Node whose buffer-pool hit ratio is 0.5 (below 0.90) and whose
connection utilization is 0. -/
def nodeHitLow : NodeData :=
  { hostname := "bp1",
    global_status := [("Innodb_buffer_pool_reads", "50"),
                      ("Innodb_buffer_pool_read_requests", "100")] }

/-- Node whose connection utilization is 0.95 (above 0.9) with a healthy
hit ratio. -/
def nodeConnOver : NodeData :=
  { hostname := "conn1",
    global_status := [("Max_used_connections", "95")],
    global_variables := [("max_connections", "100")] }

/-- Two-node request: a hit-ratio breach on the first node, a
connection-utilization breach on the second. -/
def reqLoadMixed : ClusterReviewRequest :=
  { topology_type := .galera, nodes := [nodeHitLow, nodeConnOver] }

/-- One-node request breaching only the buffer-pool hit ratio. -/
def reqLoadHitOnly : ClusterReviewRequest :=
  { topology_type := .standalone, nodes := [nodeHitLow] }

/-- Galera node with the given wsrep status entries. -/
def galeraNode (host : String) (kvs : List (String × String)) : NodeData :=
  { hostname := host, role := .galera_node, global_status := kvs }

/-- Three Galera nodes in which the first reports `wsrep_cluster_size` 0
while the others report 3 — the reported values differ, but 0 is excluded
from the collected set. -/
def reqGaleraZeroSize : ClusterReviewRequest :=
  { topology_type := .galera,
    nodes := [
      galeraNode "g1" [("wsrep_cluster_size", "0"), ("wsrep_cluster_status", "Primary"),
                       ("wsrep_cluster_state_uuid", "uuid-a")],
      galeraNode "g2" [("wsrep_cluster_size", "3"), ("wsrep_cluster_status", "Primary"),
                       ("wsrep_cluster_state_uuid", "uuid-a")],
      galeraNode "g3" [("wsrep_cluster_size", "3"), ("wsrep_cluster_status", "Primary"),
                       ("wsrep_cluster_state_uuid", "uuid-a")]] }

/-- Three Galera nodes with divergent positive cluster sizes (2 vs 3). -/
def reqGaleraSplit : ClusterReviewRequest :=
  { topology_type := .galera,
    nodes := [
      galeraNode "g1" [("wsrep_cluster_size", "2"), ("wsrep_cluster_status", "Primary"),
                       ("wsrep_cluster_state_uuid", "uuid-a")],
      galeraNode "g2" [("wsrep_cluster_size", "3"), ("wsrep_cluster_status", "Primary"),
                       ("wsrep_cluster_state_uuid", "uuid-a")],
      galeraNode "g3" [("wsrep_cluster_size", "3"), ("wsrep_cluster_status", "Primary"),
                       ("wsrep_cluster_state_uuid", "uuid-a")]] }

/-- Two nodes with identical CPU/RAM/disk; the request payload may carry a
differing `disk_type` per node, but the pydantic `SystemResources` model
has no such field, so it is dropped before the analyzer runs. -/
def reqSizingSame : ClusterReviewRequest :=
  { topology_type := .galera,
    nodes := [
      { hostname := "s1", role := .galera_node,
        system_resources := some { cpu_cores := 8, ram_gb := 32, disk_total_gb := 500 } },
      { hostname := "s2", role := .galera_node,
        system_resources := some { cpu_cores := 8, ram_gb := 32, disk_total_gb := 500 } }] }

/-- Galera request whose node has `innodb_autoinc_lock_mode = 1`. -/
def reqGaleraAutoinc : ClusterReviewRequest :=
  { topology_type := .galera,
    nodes := [{ hostname := "a1", role := .galera_node,
                global_variables := [("innodb_autoinc_lock_mode", "1")] }] }

/-- Two slave-state backends sharing traffic 125 vs 75: the query-share
spread is 25 points (> 20) yet each deviates only 25% (≤ 30%) from the
slave average. -/
def msImbalanced : MaxScaleConfig :=
  { servers := [
      { name := "A", state := some "Slave, Running", queries := some 125 },
      { name := "B", state := some "Slave, Running", queries := some 75 }] }

/-- Two slave-state backends with grossly uneven traffic (1000 vs 10). -/
def msUnbal : MaxScaleConfig :=
  { servers := [
      { name := "A", state := some "Slave, Running", queries := some 1000 },
      { name := "B", state := some "Slave, Running", queries := some 10 }] }

/-- Single-node request used as context for the MaxScale analyses. -/
def reqMsDummy : ClusterReviewRequest :=
  { topology_type := .master_replica,
    nodes := [{ hostname := "db1", role := .master }] }

/-- A log rule tagging the critical-events timeline with "disk_full" must
feed the disk-issues bucket (true of the one such rule in the table). -/
def logTagOk (r : LogRule) : Prop :=
  r.tag = some "disk_full" → r.bucket = .disk_issues

/-- Whenever the timeline holds a disk_full entry, the disk-issues bucket
is non-empty. -/
def diskIssueRecorded (s : LogSummary) : Prop :=
  "disk_full" ∈ s.critical_events → 0 < s.buckets .disk_issues

/-- A log line matching both the generic error pattern and the disk-full
pattern. -/
def logLineC7 : String := "2025-01-01 10:00:00 [ERROR] disk full on /data01"

/-- The critical storage finding emitted when the disk-issues bucket is
non-empty. -/
def diskFinding (log_name : String) : Finding :=
  { severity := .critical, category := .storage,
    title := "Disk space issues detected in", node := some log_name }

/-- The priority-1 storage recommendation emitted when the disk-issues
bucket is non-empty. -/
def diskRec : Recommendation :=
  { priority := 1, category := .storage, title := "Address disk space issues immediately",
    action := "1. Check disk space with df -h\n2. Identify large tables\n3. Clean up old data or expand storage" }

-- ===================================================================
-- THEOREMS
-- ===================================================================

/-- Claim C1 (counterexample): the buffer-pool hit ratio is NEGATIVE on a
snapshot reporting 200 buffer-pool disk reads against 100 read requests,
refuting "no metric function returns a negative value for every
NodeSnapshot". -/
theorem claim_C1_counterexample :
    calculate_buffer_pool_hit_ratio nodeHitRatioNeg = -1 ∧
    calculate_buffer_pool_hit_ratio nodeHitRatioNeg < 0 := by
  have h1 : nodeHitRatioNeg.get_status_int "Innodb_buffer_pool_reads" 0 = 200 := by decide
  have h2 : nodeHitRatioNeg.get_status_int "Innodb_buffer_pool_read_requests" 1 = 100 := by
    decide
  unfold calculate_buffer_pool_hit_ratio
  rw [h1, h2]
  norm_num

/-- Claim C1 (amended): every metric-derivation function is total and, on
any snapshot whose reported counters are non-negative and whose buffer
pool reads do not exceed its read requests, returns a finite non-negative
value; the hit ratio is exactly 1.0 at a zero read-request denominator,
and the read/write ratio yields the infinity sentinel for writes = 0 <
reads and 0 when both are zero. -/
theorem claim_C1_amended (n : NodeData) (h : metricCountersOk n) :
    metricDerivationConclusion n := by
  obtain ⟨hu, hq, hi, hup, hd, hr, hs, hmu, hmc, hsl, hab, hbr, hbrr, hpd, hpt⟩ := h
  have hw0 : 0 ≤ writeCounterSum n := by unfold writeCounterSum; omega
  have rate_nonneg : ∀ c u : Int, 0 ≤ c → 0 ≤ u →
      0 ≤ (if u = 0 then (0:ℚ) else (c:ℚ) / (u:ℚ)) := by
    intro c u hc huu
    split
    · exact le_refl 0
    · exact div_nonneg (by exact_mod_cast hc) (by exact_mod_cast huu)
  have hourly_nonneg : ∀ c u : Int, 0 ≤ c → 0 ≤ u →
      0 ≤ (if u = 0 then (0:ℚ) else if (u:ℚ) / 3600 = 0 then 0
           else (c:ℚ) / ((u:ℚ) / 3600)) := by
    intro c u hc huu
    split
    · exact le_refl 0
    · split
      · exact le_refl 0
      · rename_i hne _
        have hupos : (0:ℚ) < (u : ℚ) := by
          have : 0 < u := lt_of_le_of_ne huu (fun h2 => hne h2.symm)
          exact_mod_cast this
        exact div_nonneg (by exact_mod_cast hc) (by positivity)
  refine ⟨?_, ?_, ?_, ?_, ?_, ?_, ?_, ?_, ?_, ?_, ?_, ?_, ?_⟩
  · exact rate_nonneg _ _ hq hu
  · exact rate_nonneg _ _ hw0 hu
  · exact rate_nonneg _ _ hs hu
  · unfold calculate_connection_utilization
    split
    · exact le_refl 0
    · exact div_nonneg (by exact_mod_cast hmu) (by exact_mod_cast hmc)
  · unfold calculate_buffer_pool_hit_ratio
    split
    · norm_num
    · rename_i hR
      have hRpos : (0:ℚ) < (n.get_status_int "Innodb_buffer_pool_read_requests" 1 : ℚ) := by
        have : 0 < n.get_status_int "Innodb_buffer_pool_read_requests" 1 := by omega
        exact_mod_cast this
      have hdle : (n.get_status_int "Innodb_buffer_pool_reads" 0 : ℚ) /
          (n.get_status_int "Innodb_buffer_pool_read_requests" 1 : ℚ) ≤ 1 := by
        rw [div_le_one hRpos]; exact_mod_cast hbrr
      linarith
  · unfold calculate_buffer_pool_hit_ratio
    split
    · norm_num
    · rename_i hR
      have hRpos : (0:ℚ) < (n.get_status_int "Innodb_buffer_pool_read_requests" 1 : ℚ) := by
        have : 0 < n.get_status_int "Innodb_buffer_pool_read_requests" 1 := by omega
        exact_mod_cast this
      have hdnn : 0 ≤ (n.get_status_int "Innodb_buffer_pool_reads" 0 : ℚ) /
          (n.get_status_int "Innodb_buffer_pool_read_requests" 1 : ℚ) :=
        div_nonneg (by exact_mod_cast hbr) (le_of_lt hRpos)
      linarith
  · unfold calculate_buffer_pool_usage
    split
    · exact le_refl 0
    · exact div_nonneg (by exact_mod_cast hpd) (by exact_mod_cast hpt)
  · exact hourly_nonneg _ _ hsl hu
  · exact hourly_nonneg _ _ hab hu
  · intro q hq2
    unfold calculate_read_write_ratio at hq2
    by_cases hw : writeCounterSum n = 0
    · rw [if_pos hw] at hq2
      split at hq2
      · cases hq2
      · cases hq2; exact le_refl 0
    · rw [if_neg hw] at hq2
      cases hq2
      have hwpos : (0:ℚ) < (writeCounterSum n : ℚ) := by
        have : 0 < writeCounterSum n := lt_of_le_of_ne hw0 (fun h2 => hw h2.symm)
        exact_mod_cast this
      exact div_nonneg (by exact_mod_cast hs) (le_of_lt hwpos)
  · intro hR
    unfold calculate_buffer_pool_hit_ratio
    rw [if_pos hR]
  · rintro ⟨hw, hrpos⟩
    unfold calculate_read_write_ratio
    rw [if_pos hw, if_pos hrpos]
  · rintro ⟨hw, hr0⟩
    unfold calculate_read_write_ratio
    rw [if_pos hw, if_neg (by omega)]

/-- Claim C1 witness: the documented example snapshot satisfies the
counter sanity conditions and hence the amended conclusion. -/
theorem claim_C1_witness :
    metricCountersOk nodeHealthyExample ∧ metricDerivationConclusion nodeHealthyExample :=
  ⟨by decide, claim_C1_amended nodeHealthyExample (by decide)⟩

/-- Claim C10: when no node has `wsrep_on` ON, no node has a truthy
`wsrep_cluster_size` status value and no node has a slave-status map,
`detect_topology` returns standalone — master-status maps and semi-sync
variables are never consulted on this path. -/
theorem claim_C10 (req : ClusterReviewRequest) (h : noReplicationIndicators req) :
    detect_topology req = .standalone := by
  unfold detect_topology
  have h1 : req.nodes.any (fun n => wsrepOnIndicator n || clusterSizeIndicator n) = false := by
    simp only [List.any_eq_false]
    intro n hn
    obtain ⟨hw, hc, _⟩ := h n hn
    simp [hw, hc]
  have h2 : req.nodes.any (fun n => n.slave_status.isSome) = false := by
    simp only [List.any_eq_false]
    intro n hn
    obtain ⟨_, _, hs⟩ := h n hn
    simp [hs]
  simp [h1, h2]

/-- Claim C10 witness: a node carrying a master-status map and semi-sync
master enabled but no Galera/slave indicators is detected as standalone. -/
theorem claim_C10_witness :
    noReplicationIndicators reqMasterOnly ∧ detect_topology reqMasterOnly = .standalone :=
  ⟨by decide, claim_C10 reqMasterOnly (by decide)⟩

theorem connUtil_escalationMonotone (th : Thresholds) (n : NodeData) :
    escalationMonotone (connUtilStatusUpdate th n) := by
  constructor
  · intro s
    cases s <;> (unfold connUtilStatusUpdate; split_ifs <;> simp_all [sevLe, Severity.rank])
  · unfold connUtilStatusUpdate; split_ifs <;> simp_all

theorem bpHit_escalationMonotone (th : Thresholds) (n : NodeData) :
    escalationMonotone (bpHitStatusUpdate th n) := by
  constructor
  · intro s
    cases s <;> (unfold bpHitStatusUpdate; split_ifs <;> simp_all [sevLe, Severity.rank])
  · unfold bpHitStatusUpdate; split_ifs <;> simp_all

theorem slow_escalationMonotone (th : Thresholds) (n : NodeData) :
    escalationMonotone (slowQueriesStatusUpdate th n) := by
  constructor
  · intro s; exact Nat.le_refl _
  · rfl

theorem wsrepReady_escalationMonotone (n : NodeData) :
    escalationMonotone (wsrepReadyStatusUpdate n) := by
  constructor
  · intro s
    cases s <;> (unfold wsrepReadyStatusUpdate; split_ifs <;> simp_all [sevLe, Severity.rank])
  · unfold wsrepReadyStatusUpdate; split_ifs <;> simp_all

theorem wsrepPrimary_escalationMonotone (n : NodeData) :
    escalationMonotone (wsrepPrimaryStatusUpdate n) := by
  constructor
  · intro s
    cases s <;> (unfold wsrepPrimaryStatusUpdate; split_ifs <;> simp_all [sevLe, Severity.rank])
  · unfold wsrepPrimaryStatusUpdate; split_ifs <;> simp_all

theorem wsrepLocalState_escalationMonotone (n : NodeData) :
    escalationMonotone (wsrepLocalStateStatusUpdate n) := by
  constructor
  · intro s
    cases s <;>
      (unfold wsrepLocalStateStatusUpdate; split_ifs <;> simp_all [sevLe, Severity.rank])
  · unfold wsrepLocalStateStatusUpdate; split_ifs <;> simp_all

theorem flowControl_escalationMonotone (th : Thresholds) (n : NodeData) :
    escalationMonotone (flowControlStatusUpdate th n) := by
  constructor
  · intro s
    cases s <;> (unfold flowControlStatusUpdate; split_ifs <;> simp_all [sevLe, Severity.rank])
  · unfold flowControlStatusUpdate; split_ifs <;> simp_all

theorem replication_escalationMonotone (th : Thresholds) (n : NodeData) :
    escalationMonotone (replicationStatusUpdate th n) := by
  constructor
  · intro s
    cases s <;>
      (unfold replicationStatusUpdate
       cases get_replication_lag n <;> dsimp only <;> split_ifs <;>
         simp_all [sevLe, Severity.rank])
  · unfold replicationStatusUpdate
    cases get_replication_lag n <;> dsimp only <;> split_ifs <;> simp_all

theorem applyUpdates_escalates {l : List (Severity → Severity)}
    (h : l.Forall escalationMonotone) :
    (∀ s, sevLe s (applyUpdates l s)) ∧ applyUpdates l .critical = .critical := by
  induction l with
  | nil => exact ⟨fun s => Nat.le_refl _, rfl⟩
  | cons f tl ih =>
      rw [List.forall_cons] at h
      obtain ⟨⟨hf1, hf2⟩, htl⟩ := h
      obtain ⟨ih1, ih2⟩ := ih htl
      constructor
      · intro s
        have h1 : sevLe s (f s) := hf1 s
        have h2 : sevLe (f s) (applyUpdates tl (f s)) := ih1 (f s)
        exact Nat.le_trans h1 h2
      · show applyUpdates tl (f .critical) = .critical
        rw [hf2]; exact ih2

/-- Claim C2: within one node-performance analysis (base checks, the
Galera extension, the Replication extension) every check in the fixed
sequence only escalates the running severity and leaves critical
unchanged; hence the folded overall status never downgrades, and once any
check has set critical the remaining checks keep it critical. -/
theorem claim_C2 (th : Thresholds) (n : NodeData) :
    (baseStatusUpdates th n).Forall escalationMonotone ∧
    (galeraStatusUpdates th n).Forall escalationMonotone ∧
    (replicationStatusUpdates th n).Forall escalationMonotone ∧
    (∀ s, sevLe s (applyUpdates (baseStatusUpdates th n) s)) ∧
    (∀ s, sevLe s (applyUpdates (galeraStatusUpdates th n) s)) ∧
    (∀ s, sevLe s (applyUpdates (replicationStatusUpdates th n) s)) ∧
    applyUpdates (baseStatusUpdates th n) .critical = .critical ∧
    applyUpdates (galeraStatusUpdates th n) .critical = .critical ∧
    applyUpdates (replicationStatusUpdates th n) .critical = .critical := by
  have hbase : (baseStatusUpdates th n).Forall escalationMonotone := by
    simp only [baseStatusUpdates, List.forall_cons, List.Forall]
    exact ⟨connUtil_escalationMonotone th n, bpHit_escalationMonotone th n,
      slow_escalationMonotone th n⟩
  have hgal : (galeraStatusUpdates th n).Forall escalationMonotone := by
    simp only [galeraStatusUpdates, baseStatusUpdates, List.cons_append, List.nil_append,
      List.forall_cons, List.Forall]
    exact ⟨connUtil_escalationMonotone th n, bpHit_escalationMonotone th n,
      slow_escalationMonotone th n, wsrepReady_escalationMonotone n,
      wsrepPrimary_escalationMonotone n, wsrepLocalState_escalationMonotone n,
      flowControl_escalationMonotone th n⟩
  have hrep : (replicationStatusUpdates th n).Forall escalationMonotone := by
    simp only [replicationStatusUpdates, baseStatusUpdates, List.cons_append, List.nil_append,
      List.forall_cons, List.Forall]
    exact ⟨connUtil_escalationMonotone th n, bpHit_escalationMonotone th n,
      slow_escalationMonotone th n, replication_escalationMonotone th n⟩
  exact ⟨hbase, hgal, hrep, (applyUpdates_escalates hbase).1, (applyUpdates_escalates hgal).1,
    (applyUpdates_escalates hrep).1, (applyUpdates_escalates hbase).2,
    (applyUpdates_escalates hgal).2, (applyUpdates_escalates hrep).2⟩

/-- Claim C3 (counterexample): a node breaching only the slow-query
critical threshold keeps overall severity info — the source appends the
critical finding but never escalates `overall_status` in the slow-query
branch, refuting the claim for that metric. -/
theorem claim_C3_counterexample :
    slowCriticalBreach defaultThresholds nodeSlowOnly ∧
    slowCriticalFinding nodeSlowOnly ∈ baseNodeFindings defaultThresholds nodeSlowOnly ∧
    baseNodeStatus defaultThresholds nodeSlowOnly = .info := by
  have hcu : nodeSlowOnly.get_variable_int "max_connections" 1 = 1 := by decide
  have hmu : nodeSlowOnly.get_status_int "Max_used_connections" 0 = 0 := by decide
  have hbr : nodeSlowOnly.get_status_int "Innodb_buffer_pool_reads" 0 = 0 := by decide
  have hbR : nodeSlowOnly.get_status_int "Innodb_buffer_pool_read_requests" 1 = 1 := by decide
  have hsq : nodeSlowOnly.get_status_int "Slow_queries" 0 = 1000 := by decide
  have hup : nodeSlowOnly.effectiveUptime = 3600 := by decide
  have hconn : calculate_connection_utilization nodeSlowOnly = 0 := by
    unfold calculate_connection_utilization; rw [hcu, hmu]; norm_num
  have hhit : calculate_buffer_pool_hit_ratio nodeSlowOnly = 1 := by
    unfold calculate_buffer_pool_hit_ratio; rw [hbR, hbr]; norm_num
  have hslow : calculate_slow_queries_per_hour nodeSlowOnly = 1000 := by
    unfold calculate_slow_queries_per_hour; rw [hup, hsq]; norm_num
  refine ⟨?_, ?_, ?_⟩
  · show calculate_slow_queries_per_hour nodeSlowOnly ≥ defaultThresholds.slow_critical
    rw [hslow]; norm_num [defaultThresholds]
  · unfold baseNodeFindings
    rw [if_neg (by rw [hconn]; norm_num [defaultThresholds]),
        if_neg (by rw [hhit]; norm_num [defaultThresholds]),
        if_pos (by rw [hslow]; norm_num [defaultThresholds])]
    simp [slowCriticalFinding]
  · unfold baseNodeStatus applyUpdates baseStatusUpdates
    simp only [List.foldl]
    rw [show connUtilStatusUpdate defaultThresholds nodeSlowOnly .info = .info by
          unfold connUtilStatusUpdate
          rw [if_neg (by rw [hconn]; norm_num [defaultThresholds]),
              if_neg (by rw [hconn]; norm_num [defaultThresholds])],
        show bpHitStatusUpdate defaultThresholds nodeSlowOnly .info = .info by
          unfold bpHitStatusUpdate
          rw [if_neg (by rw [hhit]; norm_num [defaultThresholds]),
              if_neg (by rw [hhit]; norm_num [defaultThresholds])]]
    rfl

/-- Claim C3 (amended): for connection utilization and buffer-pool hit
ratio, a critical breach forces the node's overall severity to critical
and appends a critical finding, and a warning-only breach yields warning
unless already critical; for slow queries, a critical breach appends a
critical finding but leaves the overall severity UNCHANGED (the source
never assigns overall_status in that branch), and the overall status is
exactly the fold of these three checks. -/
theorem claim_C3_amended (th : Thresholds) (n : NodeData) :
    (connCriticalBreach th n →
      (∀ s, connUtilStatusUpdate th n s = .critical) ∧
      connCriticalFinding n ∈ baseNodeFindings th n) ∧
    (connWarningOnlyBreach th n →
      ∀ s, connUtilStatusUpdate th n s = if s = .critical then .critical else .warning) ∧
    (bpCriticalBreach th n →
      (∀ s, bpHitStatusUpdate th n s = .critical) ∧
      bpCriticalFinding n ∈ baseNodeFindings th n) ∧
    (bpWarningOnlyBreach th n →
      ∀ s, bpHitStatusUpdate th n s = if s = .critical then .critical else .warning) ∧
    (slowCriticalBreach th n →
      (∀ s, slowQueriesStatusUpdate th n s = s) ∧
      slowCriticalFinding n ∈ baseNodeFindings th n) ∧
    baseNodeStatus th n = applyUpdates (baseStatusUpdates th n) .info := by
  refine ⟨?_, ?_, ?_, ?_, ?_, rfl⟩
  · intro hb
    replace hb : calculate_connection_utilization n ≥ th.conn_critical := hb
    constructor
    · intro s; unfold connUtilStatusUpdate; rw [if_pos hb]
    · unfold baseNodeFindings
      rw [if_pos hb]
      exact List.mem_append_left _ (List.mem_append_left _ (by
        simp [connCriticalFinding]))
  · rintro ⟨hw, hc⟩
    intro s
    unfold connUtilStatusUpdate
    rw [if_neg (not_le.mpr hc), if_pos (le_of_le_of_eq hw rfl : _ ≥ th.conn_warning)]
    cases s <;> simp
  · intro hb
    replace hb : calculate_buffer_pool_hit_ratio n < th.bp_hit_critical := hb
    constructor
    · intro s; unfold bpHitStatusUpdate; rw [if_pos hb]
    · unfold baseNodeFindings
      rw [if_pos hb]
      refine List.mem_append_left _ (List.mem_append_right _ ?_)
      simp [bpCriticalFinding]
  · rintro ⟨hw, hc⟩
    intro s
    unfold bpHitStatusUpdate
    rw [if_neg (not_lt.mpr hw), if_pos hc]
    cases s <;> simp
  · intro hb
    replace hb : calculate_slow_queries_per_hour n ≥ th.slow_critical := hb
    refine ⟨fun s => rfl, ?_⟩
    unfold baseNodeFindings
    rw [if_pos hb]
    refine List.mem_append_right _ ?_
    simp [slowCriticalFinding]

/-- Claim C3 witness: on a node at 95% connection utilization the critical
branch fires — overall severity critical with the finding appended. -/
theorem claim_C3_witness :
    connCriticalBreach defaultThresholds nodeConnHot ∧
    (∀ s, connUtilStatusUpdate defaultThresholds nodeConnHot s = .critical) ∧
    connCriticalFinding nodeConnHot ∈ baseNodeFindings defaultThresholds nodeConnHot := by
  have hcu : nodeConnHot.get_variable_int "max_connections" 1 = 100 := by decide
  have hmu : nodeConnHot.get_status_int "Max_used_connections" 0 = 95 := by decide
  have hb : connCriticalBreach defaultThresholds nodeConnHot := by
    show calculate_connection_utilization nodeConnHot ≥ defaultThresholds.conn_critical
    unfold calculate_connection_utilization
    rw [hcu, hmu]
    norm_num [defaultThresholds]
  exact ⟨hb, ((claim_C3_amended defaultThresholds nodeConnHot).1 hb).1,
    ((claim_C3_amended defaultThresholds nodeConnHot).1 hb).2⟩

theorem loadProblemStep_decomp (p : Bool × Severity) (n : NodeData) :
    loadProblemStep p n =
      (if calculate_connection_utilization n > 9/10 then false else p.1,
       if calculate_buffer_pool_hit_ratio n < 9/10 then .warning
       else if calculate_connection_utilization n > 9/10 then .critical
       else p.2) := by
  unfold loadProblemStep
  split_ifs <;> rfl

theorem loadFold_decomp (l : List NodeData) (b : Bool) (s : Severity) :
    l.foldl loadProblemStep (b, s) = (loadCanFold l b, loadStatusFold l s) := by
  induction l generalizing b s with
  | nil => rfl
  | cons n tl ih =>
      simp only [List.foldl, loadCanFold, loadStatusFold] at ih ⊢
      rw [loadProblemStep_decomp (b, s) n]
      exact ih _ _

theorem loadCanFold_false_iff (l : List NodeData) (b : Bool) :
    loadCanFold l b = false ↔
      b = false ∨ ∃ n ∈ l, calculate_connection_utilization n > 9/10 := by
  induction l generalizing b with
  | nil => simp [loadCanFold]
  | cons n tl ih =>
      simp only [loadCanFold, List.foldl] at ih ⊢
      by_cases hc : calculate_connection_utilization n > 9/10
      · rw [if_pos hc, ih]
        constructor
        · intro _; exact Or.inr ⟨n, List.mem_cons_self n tl, hc⟩
        · intro _; exact Or.inl rfl
      · rw [if_neg hc, ih]
        constructor
        · rintro (hb | ⟨m, hm, hmm⟩)
          · exact Or.inl hb
          · exact Or.inr ⟨m, List.mem_cons_of_mem _ hm, hmm⟩
        · rintro (hb | ⟨m, hm, hmm⟩)
          · exact Or.inl hb
          · rcases List.mem_cons.mp hm with rfl | hm2
            · exact absurd hmm hc
            · exact Or.inr ⟨m, hm2, hmm⟩

theorem loadStatusFold_ne_info (l : List NodeData) (s : Severity)
    (hs : s ≠ .info) : loadStatusFold l s ≠ .info := by
  induction l generalizing s with
  | nil => exact hs
  | cons n tl ih =>
      simp only [loadStatusFold, List.foldl] at ih ⊢
      split_ifs <;> first
        | exact ih _ hs
        | exact ih _ (fun h => by cases h)

theorem loadStatusFold_breach_ne_info (l : List NodeData) (s : Severity)
    (h : ∃ n ∈ l, calculate_buffer_pool_hit_ratio n < 9/10 ∨
      calculate_connection_utilization n > 9/10) :
    loadStatusFold l s ≠ .info := by
  induction l generalizing s with
  | nil => obtain ⟨n, hn, _⟩ := h; cases hn
  | cons n tl ih =>
      simp only [loadStatusFold, List.foldl] at ih ⊢
      by_cases hh : calculate_buffer_pool_hit_ratio n < 9/10
      · rw [if_pos hh]
        exact loadStatusFold_ne_info tl .warning (by intro h2; cases h2)
      · rw [if_neg hh]
        by_cases hc : calculate_connection_utilization n > 9/10
        · rw [if_pos hc]
          exact loadStatusFold_ne_info tl .critical (by intro h2; cases h2)
        · rw [if_neg hc]
          obtain ⟨m, hm, hmm⟩ := h
          rcases List.mem_cons.mp hm with rfl | hm2
          · rcases hmm with hmm | hmm
            · exact absurd hmm hh
            · exact absurd hmm hc
          · exact ih _ ⟨m, hm2, hmm⟩

theorem loadStatusFold_warning_fixed (l : List NodeData)
    (h : ∀ n ∈ l, ¬calculate_connection_utilization n > 9/10) :
    loadStatusFold l .warning = .warning := by
  induction l with
  | nil => rfl
  | cons n tl ih =>
      simp only [loadStatusFold, List.foldl] at ih ⊢
      rw [if_neg (h n (List.mem_cons_self n tl))]
      split_ifs <;>
        exact ih (fun m hm => h m (List.mem_cons_of_mem _ hm))

theorem loadStatusFold_no_conn (l : List NodeData) (s : Severity)
    (hnoc : ∀ n ∈ l, ¬calculate_connection_utilization n > 9/10)
    (hex : ∃ n ∈ l, calculate_buffer_pool_hit_ratio n < 9/10) :
    loadStatusFold l s = .warning := by
  induction l generalizing s with
  | nil => obtain ⟨n, hn, _⟩ := hex; cases hn
  | cons n tl ih =>
      have hnoc_tl : ∀ m ∈ tl, ¬calculate_connection_utilization m > 9/10 :=
        fun m hm => hnoc m (List.mem_cons_of_mem _ hm)
      simp only [loadStatusFold, List.foldl] at ih ⊢
      by_cases hh : calculate_buffer_pool_hit_ratio n < 9/10
      · rw [if_pos hh]
        exact loadStatusFold_warning_fixed tl hnoc_tl
      · rw [if_neg hh, if_neg (hnoc n (List.mem_cons_self n tl))]
        obtain ⟨m, hm, hmm⟩ := hex
        rcases List.mem_cons.mp hm with rfl | hm2
        · exact absurd hmm hh
        · exact ih _ hnoc_tl ⟨m, hm2, hmm⟩

theorem loadStatusFold_critical_fixed (l : List NodeData)
    (h : ∀ n ∈ l, ¬calculate_buffer_pool_hit_ratio n < 9/10) :
    loadStatusFold l .critical = .critical := by
  induction l with
  | nil => rfl
  | cons n tl ih =>
      simp only [loadStatusFold, List.foldl] at ih ⊢
      rw [if_neg (h n (List.mem_cons_self n tl))]
      split_ifs <;>
        exact ih (fun m hm => h m (List.mem_cons_of_mem _ hm))

theorem loadStatusFold_no_hit (l : List NodeData) (s : Severity)
    (hnoh : ∀ n ∈ l, ¬calculate_buffer_pool_hit_ratio n < 9/10)
    (hex : ∃ n ∈ l, calculate_connection_utilization n > 9/10) :
    loadStatusFold l s = .critical := by
  induction l generalizing s with
  | nil => obtain ⟨n, hn, _⟩ := hex; cases hn
  | cons n tl ih =>
      have hnoh_tl : ∀ m ∈ tl, ¬calculate_buffer_pool_hit_ratio m < 9/10 :=
        fun m hm => hnoh m (List.mem_cons_of_mem _ hm)
      simp only [loadStatusFold, List.foldl] at ih ⊢
      rw [if_neg (hnoh n (List.mem_cons_self n tl))]
      by_cases hc : calculate_connection_utilization n > 9/10
      · rw [if_pos hc]
        exact loadStatusFold_critical_fixed tl hnoh_tl
      · rw [if_neg hc]
        obtain ⟨m, hm, hmm⟩ := hex
        rcases List.mem_cons.mp hm with rfl | hm2
        · exact absurd hmm hc
        · exact ih _ hnoh_tl ⟨m, hm2, hmm⟩

/-- Claim C5 (counterexample): with a hit-ratio breach on the first node
and a connection breach on the second, the returned status is CRITICAL,
not warning — refuting "any node's hit ratio below 0.90 makes the
returned status warning" (the two branches overwrite each other in node
order). -/
theorem claim_C5_counterexample :
    calculate_buffer_pool_hit_ratio nodeHitLow < 9/10 ∧
    nodeHitLow ∈ reqLoadMixed.nodes ∧
    (analyze_load reqLoadMixed).status = .critical := by
  have h1r : nodeHitLow.get_status_int "Innodb_buffer_pool_reads" 0 = 50 := by decide
  have h1R : nodeHitLow.get_status_int "Innodb_buffer_pool_read_requests" 1 = 100 := by decide
  have h1mc : nodeHitLow.get_variable_int "max_connections" 1 = 1 := by decide
  have h1mu : nodeHitLow.get_status_int "Max_used_connections" 0 = 0 := by decide
  have h2mc : nodeConnOver.get_variable_int "max_connections" 1 = 100 := by decide
  have h2mu : nodeConnOver.get_status_int "Max_used_connections" 0 = 95 := by decide
  have h2r : nodeConnOver.get_status_int "Innodb_buffer_pool_reads" 0 = 0 := by decide
  have h2R : nodeConnOver.get_status_int "Innodb_buffer_pool_read_requests" 1 = 1 := by decide
  have hit1 : calculate_buffer_pool_hit_ratio nodeHitLow = 1/2 := by
    unfold calculate_buffer_pool_hit_ratio; rw [h1r, h1R]; norm_num
  have conn1 : calculate_connection_utilization nodeHitLow = 0 := by
    unfold calculate_connection_utilization; rw [h1mc, h1mu]; norm_num
  have hit2 : calculate_buffer_pool_hit_ratio nodeConnOver = 1 := by
    unfold calculate_buffer_pool_hit_ratio; rw [h2r, h2R]; norm_num
  have conn2 : calculate_connection_utilization nodeConnOver = 19/20 := by
    unfold calculate_connection_utilization; rw [h2mc, h2mu]; norm_num
  refine ⟨by rw [hit1]; norm_num, by simp [reqLoadMixed], ?_⟩
  show (reqLoadMixed.nodes.foldl loadProblemStep (true, .info)).2 = .critical
  show ([nodeHitLow, nodeConnOver].foldl loadProblemStep (true, .info)).2 = .critical
  simp only [List.foldl]
  rw [loadProblemStep_decomp, loadProblemStep_decomp]
  rw [hit1, conn1, hit2, conn2]
  norm_num

/-- Claim C5 (amended): `can_handle_current_load` is false iff some node's
connection utilization exceeds 0.9 (so a hit-ratio breach alone never
clears it, and both checks are evaluated for every node); a hit-ratio
breach anywhere forces the status off info; when no node breaches
connection utilization a hit-ratio breach yields exactly warning; when no
node breaches the hit ratio a connection breach yields exactly critical —
but when both kinds of breach occur the final status follows the later
assignment in node order, so the status can end critical (not warning)
despite a hit-ratio breach. -/
theorem claim_C5_amended (req : ClusterReviewRequest) :
    ((analyze_load req).can_handle_current_load = false ↔
      ∃ n ∈ req.nodes, calculate_connection_utilization n > 9/10) ∧
    ((∃ n ∈ req.nodes, calculate_buffer_pool_hit_ratio n < 9/10) →
      (analyze_load req).status ≠ .info) ∧
    ((∃ n ∈ req.nodes, calculate_buffer_pool_hit_ratio n < 9/10) ∧
      (∀ n ∈ req.nodes, ¬calculate_connection_utilization n > 9/10) →
      (analyze_load req).status = .warning) ∧
    ((∃ n ∈ req.nodes, calculate_connection_utilization n > 9/10) ∧
      (∀ n ∈ req.nodes, ¬calculate_buffer_pool_hit_ratio n < 9/10) →
      (analyze_load req).status = .critical) := by
  have hcan : (analyze_load req).can_handle_current_load =
      (req.nodes.foldl loadProblemStep (true, .info)).1 := rfl
  have hst : (analyze_load req).status =
      (req.nodes.foldl loadProblemStep (true, .info)).2 := rfl
  rw [hcan, hst, loadFold_decomp]
  refine ⟨?_, ?_, ?_, ?_⟩
  · rw [loadCanFold_false_iff]
    simp
  · intro hex
    exact loadStatusFold_breach_ne_info _ _
      (hex.imp (fun n h => ⟨h.1, Or.inl h.2⟩))
  · rintro ⟨hex, hnoc⟩
    exact loadStatusFold_no_conn _ _ hnoc hex
  · rintro ⟨hex, hnoh⟩
    exact loadStatusFold_no_hit _ _ hnoh hex

/-- Claim C5 witness: a single node breaching only the hit ratio gives
status warning and `can_handle_current_load` remains true. -/
theorem claim_C5_witness :
    (∃ n ∈ reqLoadHitOnly.nodes, calculate_buffer_pool_hit_ratio n < 9/10) ∧
    (∀ n ∈ reqLoadHitOnly.nodes, ¬calculate_connection_utilization n > 9/10) ∧
    (analyze_load reqLoadHitOnly).status = .warning ∧
    ¬(analyze_load reqLoadHitOnly).can_handle_current_load = false := by
  have h1r : nodeHitLow.get_status_int "Innodb_buffer_pool_reads" 0 = 50 := by decide
  have h1R : nodeHitLow.get_status_int "Innodb_buffer_pool_read_requests" 1 = 100 := by decide
  have h1mc : nodeHitLow.get_variable_int "max_connections" 1 = 1 := by decide
  have h1mu : nodeHitLow.get_status_int "Max_used_connections" 0 = 0 := by decide
  have hit1 : calculate_buffer_pool_hit_ratio nodeHitLow = 1/2 := by
    unfold calculate_buffer_pool_hit_ratio; rw [h1r, h1R]; norm_num
  have conn1 : calculate_connection_utilization nodeHitLow = 0 := by
    unfold calculate_connection_utilization; rw [h1mc, h1mu]; norm_num
  have hex : ∃ n ∈ reqLoadHitOnly.nodes, calculate_buffer_pool_hit_ratio n < 9/10 := by
    refine ⟨nodeHitLow, by simp [reqLoadHitOnly], ?_⟩
    rw [hit1]; norm_num
  have hnoc : ∀ n ∈ reqLoadHitOnly.nodes, ¬calculate_connection_utilization n > 9/10 := by
    intro n hn
    have : n = nodeHitLow := by
      simpa [reqLoadHitOnly] using hn
    rw [this, conn1]; norm_num
  refine ⟨hex, hnoc, (claim_C5_amended reqLoadHitOnly).2.2.1 ⟨hex, hnoc⟩, ?_⟩
  intro hfalse
  obtain ⟨n, hn, hc⟩ := ((claim_C5_amended reqLoadHitOnly).1).mp hfalse
  exact hnoc n hn hc

/-- Claim C4 (counterexample): two nodes report differing
`wsrep_cluster_size` values (0 vs 3), yet the architecture result is
`topology_valid = true` with status info — size 0 never enters the
collected set (`if cluster_size > 0`), so the divergence is invisible. -/
theorem claim_C4_counterexample :
    (∃ n1 ∈ reqGaleraZeroSize.nodes, ∃ n2 ∈ reqGaleraZeroSize.nodes,
      get_wsrep_status n1 "wsrep_cluster_size" = some "0" ∧
      get_wsrep_status n2 "wsrep_cluster_size" = some "3") ∧
    (galeraAnalyzeArchitecture reqGaleraZeroSize).topology_valid = true ∧
    (galeraAnalyzeArchitecture reqGaleraZeroSize).status = .info := by
  refine ⟨?_, by decide, by decide⟩
  refine ⟨galeraNode "g1" [("wsrep_cluster_size", "0"), ("wsrep_cluster_status", "Primary"),
    ("wsrep_cluster_state_uuid", "uuid-a")], by decide,
    galeraNode "g2" [("wsrep_cluster_size", "3"), ("wsrep_cluster_status", "Primary"),
    ("wsrep_cluster_state_uuid", "uuid-a")], by decide, by decide, by decide⟩

/-- Claim C4 (amended): when the nodes checked for Galera consistency
report two or more distinct POSITIVE `wsrep_cluster_size` values, or two
or more distinct NON-EMPTY `wsrep_cluster_state_uuid` values, the
architecture result has `topology_valid = false` and critical status;
size 0 and empty-uuid reports are excluded from the comparison by the
source. -/
theorem claim_C4_amended (req : ClusterReviewRequest)
    (h : 1 < (galeraCollectedSizes req).length ∨ 1 < (galeraCollectedUuids req).length) :
    (galeraAnalyzeArchitecture req).topology_valid = false ∧
    (galeraAnalyzeArchitecture req).status = .critical := by
  unfold galeraAnalyzeArchitecture
  rcases h with h | h <;>
    constructor <;> simp only [] <;> split_ifs <;> simp_all

/-- Claim C4 witness: divergent positive sizes (2 vs 3) across three
nodes yield an invalid topology with critical status. -/
theorem claim_C4_witness :
    (1 < (galeraCollectedSizes reqGaleraSplit).length ∨
      1 < (galeraCollectedUuids reqGaleraSplit).length) ∧
    (galeraAnalyzeArchitecture reqGaleraSplit).topology_valid = false ∧
    (galeraAnalyzeArchitecture reqGaleraSplit).status = .critical :=
  ⟨Or.inl (by decide), claim_C4_amended reqGaleraSplit (Or.inl (by decide))⟩

theorem sizingNodeRes_disk_type (n : NodeData) : (sizingNodeRes n).disk_type = none := by
  unfold sizingNodeRes
  cases n.system_resources <;> rfl

theorem sizing_disk_types_nil (l : List NodeData) :
    (((l.map sizingNodeRes).filter (fun r => r.cpu_cores.isSome)).filterMap
      (fun r => r.disk_type)) = [] := by
  induction l with
  | nil => rfl
  | cons n tl ih =>
      simp only [List.map_cons, List.filter_cons]
      split_ifs <;> simp [List.filterMap_cons, sizingNodeRes_disk_type, ih]

/-- Claim C6: the identical-resources half holds (`is_consistent = true`
with no entries), but the disk-type half cannot: the collected disk type
is `getattr(resources, 'disk_type', None)` and the pydantic
`SystemResources` model has NO disk_type field, so the critical disk-type
branch is dead code — no request ever yields a disk_type inconsistency
entry, contradicting the claimed exactly-one-critical-entry behaviour. -/
theorem claim_C6_code_bug :
    (sizingResourceConsistency reqSizingSame).1 = true ∧
    (sizingResourceConsistency reqSizingSame).2 = [] ∧
    ∀ req : ClusterReviewRequest,
      ((sizingResourceConsistency req).2.all (fun i => i.resource != "disk_type")) = true := by
  refine ⟨by decide, by decide, ?_⟩
  intro req
  have hnil := sizing_disk_types_nil req.nodes
  simp only [sizingResourceConsistency, hnil]
  split
  · split_ifs <;> simp_all [List.all_append]
  · rfl

theorem flatMap_nil_of_forall {α β : Type} (l : List α) (f : α → List β)
    (h : ∀ x ∈ l, f x = []) : l.flatMap f = [] := by
  induction l with
  | nil => rfl
  | cons a tl ih =>
      simp [List.flatMap_cons, h a (List.mem_cons_self a tl),
        ih (fun x hx => h x (List.mem_cons_of_mem _ hx))]

/-- Claim C9 (amended): the spread check and the finding are decoupled: a
spread above 20 points only clears `balanced` (and conversely), the
imbalance is round(max − min) of the collected non-master shares when at
least two exist, and the "Unbalanced read distribution" warning plus the
rebalancing recommendation are emitted per slave-state server whose query
count deviates more than 30% from the slave average (not from the
20-point spread). -/
theorem claim_C9_amended (ms : MaxScaleConfig) (req : ClusterReviewRequest) :
    ((calculateLoadDistribution ms).imbalance_pct > 20 ↔
      (calculateLoadDistribution ms).balanced = false) ∧
    (∀ p q rest, balanceQueryPcts ms = p :: q :: rest →
      (calculateLoadDistribution ms).imbalance_pct =
        pyRound1 ((q :: rest).foldl max p - (q :: rest).foldl min p)) ∧
    ((serversWithQueries ms).length > 1 → maxscaleTotalQueries ms > 0 →
      (slaveQueries ms).length > 1 →
      ∀ sq ∈ slaveQueries ms, slaveDeviation (slaveExpected ms) sq.2 > 30 →
        ({ severity := .warning, category := .performance,
           title := "Unbalanced read distribution", node := some sq.1 } : Finding) ∈
          maxscaleAnalyzeFindings ms req ∧
        ({ priority := 3, category := .performance,
           title := "Review load balancing configuration",
           action := "Review slave_selection_criteria setting. Consider ADAPTIVE_ROUTING." } :
          Recommendation) ∈ maxscaleAnalyzeRecs ms) := by
  refine ⟨?_, ?_, ?_⟩
  · unfold calculateLoadDistribution
    rcases hbq : balanceQueryPcts ms with _ | ⟨p, _ | ⟨q, rest⟩⟩ <;> dsimp only
    · constructor
      · intro h; norm_num at h
      · intro h; simp at h
    · constructor
      · intro h; norm_num at h
      · intro h; simp at h
    · constructor <;> intro h <;> simp_all [List.foldl_cons]
  · intro p q rest hbq
    unfold calculateLoadDistribution
    rw [hbq]
  · intro h1 h2 h3 sq hsq hdev
    constructor
    · unfold maxscaleAnalyzeFindings
      refine List.mem_append_right _ ?_
      unfold maxscaleLoadDistFindings
      refine List.mem_append_left _ ?_
      rw [if_pos ⟨h1, h2, h3⟩]
      refine List.mem_flatMap.mpr ⟨sq, hsq, ?_⟩
      rw [if_pos hdev]
      exact List.mem_singleton.mpr rfl
    · unfold maxscaleAnalyzeRecs
      refine List.mem_append_right _ ?_
      unfold maxscaleLoadDistRecs
      rw [if_pos ⟨h1, h2, h3⟩]
      exact List.mem_flatMap.mpr ⟨sq, hsq, by
        rw [if_pos hdev]; exact List.mem_singleton.mpr rfl⟩

/-- Claim C9 (counterexample): with slave shares 62.5% and 37.5% the
spread is 25 points (> 20) and `balanced = false`, yet NO "unbalanced"
warning finding and NO recommendation is emitted — each slave deviates
only 25% (≤ 30%) from the slave average, and only the 30%-deviation rule
produces the finding. -/
theorem claim_C9_counterexample :
    (calculateLoadDistribution msImbalanced).imbalance_pct = 25 ∧
    (calculateLoadDistribution msImbalanced).balanced = false ∧
    (maxscaleAnalyzeFindings msImbalanced reqMsDummy).countP
      (fun f => f.title == "Unbalanced read distribution") = 0 ∧
    maxscaleAnalyzeRecs msImbalanced = [] := by
  have hsq : slaveQueries msImbalanced = [("A", 125), ("B", 75)] := by decide
  have hexp : slaveExpected msImbalanced = 100 := by
    unfold slaveExpected
    rw [hsq]
    push_cast
    norm_num
  have hdA : ¬slaveDeviation 100 125 > 30 := by
    unfold slaveDeviation
    rw [if_pos (by norm_num)]
    push_cast
    have h1 : (125 : ℚ) - 100 = 25 := by norm_num
    rw [h1, abs_of_nonneg (by norm_num : (0:ℚ) ≤ 25)]
    norm_num
  have hdB : ¬slaveDeviation 100 75 > 30 := by
    unfold slaveDeviation
    rw [if_pos (by norm_num)]
    push_cast
    have h1 : (75 : ℚ) - 100 = -25 := by norm_num
    rw [h1, abs_neg, abs_of_nonneg (by norm_num : (0:ℚ) ≤ 25)]
    norm_num
  have hdevnil : ∀ sq ∈ slaveQueries msImbalanced,
      (if slaveDeviation (slaveExpected msImbalanced) sq.2 > 30 then
        [({ severity := .warning, category := .performance,
            title := "Unbalanced read distribution", node := some sq.1 } : Finding)]
      else []) = [] := by
    intro sq hm
    rw [hexp, hsq] at *
    rcases List.mem_cons.mp hm with rfl | hm2
    · rw [if_neg hdA]
    · rcases List.mem_cons.mp hm2 with rfl | hm3
      · rw [if_neg hdB]
      · cases hm3
  have hdevnilR : ∀ sq ∈ slaveQueries msImbalanced,
      (if slaveDeviation (slaveExpected msImbalanced) sq.2 > 30 then
        [({ priority := 3, category := .performance,
            title := "Review load balancing configuration",
            action := "Review slave_selection_criteria setting. Consider ADAPTIVE_ROUTING." } :
          Recommendation)]
      else []) = [] := by
    intro sq hm
    rw [hexp, hsq] at *
    rcases List.mem_cons.mp hm with rfl | hm2
    · rw [if_neg hdA]
    · rcases List.mem_cons.mp hm2 with rfl | hm3
      · rw [if_neg hdB]
      · cases hm3
  have hbq : balanceQueryPcts msImbalanced =
      [pyRound1 (((125 : Int) : ℚ) / ((200 : Int) : ℚ) * 100),
       pyRound1 (((75 : Int) : ℚ) / ((200 : Int) : ℚ) * 100)] := by rfl
  have e1 : pyRound1 (((125 : Int) : ℚ) / ((200 : Int) : ℚ) * 100) = 125 / 2 := by
    unfold pyRound1
    push_cast
    have h1 : (125 : ℚ) / 200 * 100 * 10 = 625 := by norm_num
    rw [h1]
    norm_num [round_eq]
  have e2 : pyRound1 (((75 : Int) : ℚ) / ((200 : Int) : ℚ) * 100) = 75 / 2 := by
    unfold pyRound1
    push_cast
    have h1 : (75 : ℚ) / 200 * 100 * 10 = 375 := by norm_num
    rw [h1]
    norm_num [round_eq]
  have e3 : pyRound1 ((25 : ℚ)) = 25 := by
    unfold pyRound1
    have h1 : (25 : ℚ) * 10 = 250 := by norm_num
    rw [h1]
    norm_num [round_eq]
  have hldist : calculateLoadDistribution msImbalanced =
      { balanced := false, imbalance_pct := 25 } := by
    unfold calculateLoadDistribution
    rw [hbq, e1, e2]
    dsimp only [List.foldl]
    rw [max_eq_left (by norm_num : (75:ℚ)/2 ≤ 125/2),
        min_eq_right (by norm_num : (75:ℚ)/2 ≤ 125/2),
        show (125:ℚ)/2 - 75/2 = 25 by norm_num, e3]
    rfl
  have hldfc : (maxscaleLoadDistFindings msImbalanced).countP
      (fun f => f.title == "Unbalanced read distribution") = 0 := by
    unfold maxscaleLoadDistFindings
    rw [if_pos ⟨by decide, by decide, by decide⟩,
        flatMap_nil_of_forall _ _ hdevnil]
    decide
  have hldr : maxscaleLoadDistRecs msImbalanced = [] := by
    unfold maxscaleLoadDistRecs
    rw [if_pos ⟨by decide, by decide, by decide⟩]
    exact flatMap_nil_of_forall _ _ hdevnilR
  have c1 : (maxscaleServersFindings msImbalanced).countP
      (fun f => f.title == "Unbalanced read distribution") = 0 := by decide
  have c2 : (maxscaleServicesFindings reqMsDummy.topology_type msImbalanced).countP
      (fun f => f.title == "Unbalanced read distribution") = 0 := by decide
  have c3 : (maxscaleRoutingFindings reqMsDummy.topology_type msImbalanced
      reqMsDummy.nodes.length).countP
      (fun f => f.title == "Unbalanced read distribution") = 0 := by decide
  have c4 : (maxscaleTrafficFindings msImbalanced).countP
      (fun f => f.title == "Unbalanced read distribution") = 0 := by decide
  have r1 : maxscaleServicesRecs msImbalanced = [] := by decide
  have r2 : maxscaleRoutingRecs msImbalanced = [] := by decide
  have r3 : maxscaleTrafficRecs msImbalanced = [] := by decide
  refine ⟨by rw [hldist], by rw [hldist], ?_, ?_⟩
  · unfold maxscaleAnalyzeFindings
    simp only [List.countP_append, c1, c2, c3, c4, hldfc]
  · unfold maxscaleAnalyzeRecs
    rw [r1, r2, r3, hldr]
    rfl

/-- Claim C9 witness: with slave traffic 1000 vs 10 the deviation rule
fires and the unbalanced warning plus rebalancing recommendation are
present. -/
theorem claim_C9_witness :
    slaveDeviation (slaveExpected msUnbal) 1000 > 30 ∧
    ({ severity := .warning, category := .performance,
       title := "Unbalanced read distribution", node := some "A" } : Finding) ∈
      maxscaleAnalyzeFindings msUnbal reqMsDummy ∧
    ({ priority := 3, category := .performance,
       title := "Review load balancing configuration",
       action := "Review slave_selection_criteria setting. Consider ADAPTIVE_ROUTING." } :
      Recommendation) ∈ maxscaleAnalyzeRecs msUnbal := by
  have hsq : slaveQueries msUnbal = [("A", 1000), ("B", 10)] := by decide
  have hexp : slaveExpected msUnbal = 505 := by
    unfold slaveExpected
    rw [hsq]
    push_cast
    norm_num
  have hdev : slaveDeviation (slaveExpected msUnbal) 1000 > 30 := by
    rw [hexp]
    unfold slaveDeviation
    rw [if_pos (by norm_num)]
    push_cast
    have h1 : (1000 : ℚ) - 505 = 495 := by norm_num
    rw [h1, abs_of_nonneg (by norm_num : (0:ℚ) ≤ 495)]
    norm_num
  obtain ⟨hf, hr⟩ := (claim_C9_amended msUnbal reqMsDummy).2.2
    (by decide) (by decide) (by decide) ("A", 1000)
    (by rw [hsq]; exact List.mem_cons_self _ _) hdev
  exact ⟨hdev, hf, hr⟩

theorem applyLogRule_error_count (line : String) (s : LogSummary) (r : LogRule) :
    (applyLogRule line s r).error_count = s.error_count := by
  unfold applyLogRule
  split <;> rfl

theorem foldRules_error_count (line : String) (rules : List LogRule) (s : LogSummary) :
    (rules.foldl (applyLogRule line) s).error_count = s.error_count := by
  induction rules generalizing s with
  | nil => rfl
  | cons r tl ih =>
      simp only [List.foldl_cons]
      rw [ih, applyLogRule_error_count]

theorem applyLogRule_count (line : String) (s : LogSummary) (r : LogRule) :
    (applyLogRule line s r).critical_events.count "disk_full" =
      s.critical_events.count "disk_full" +
        (if r.cond line && (r.tag == some "disk_full") then 1 else 0) := by
  unfold applyLogRule
  by_cases hc : r.cond line = true
  · rw [if_pos hc]
    rcases ht : r.tag with _ | t
    · simp [ht, hc]
    · by_cases hteq : t = "disk_full"
      · subst hteq
        simp [ht, hc, List.count_append]
      · simp [ht, hc, hteq, List.count_append, List.count_cons]
  · rw [if_neg hc]
    simp [hc]

theorem foldRules_count (line : String) (rules : List LogRule) (s : LogSummary) :
    (rules.foldl (applyLogRule line) s).critical_events.count "disk_full" =
      s.critical_events.count "disk_full" +
        rules.countP (fun r => r.cond line && (r.tag == some "disk_full")) := by
  induction rules generalizing s with
  | nil => simp
  | cons r tl ih =>
      simp only [List.foldl_cons, List.countP_cons]
      rw [ih, applyLogRule_count]
      by_cases h : (r.cond line && (r.tag == some "disk_full")) = true
      · simp [h]; omega
      · simp [h]

theorem bumpBucket_le (target b : Bucket) (f : Bucket → Nat) :
    f b ≤ bumpBucket target f b := by
  unfold bumpBucket
  split <;> omega

theorem applyLogRule_diskIssue (line : String) (s : LogSummary) (r : LogRule)
    (h : logTagOk r) (hP : diskIssueRecorded s) :
    diskIssueRecorded (applyLogRule line s r) := by
  unfold applyLogRule
  split
  · intro hmem
    simp only at hmem ⊢
    rcases List.mem_append.mp hmem with hm | hm
    · exact lt_of_lt_of_le (hP hm) (bumpBucket_le _ _ _)
    · rcases ht : r.tag with _ | t
      · rw [ht] at hm; cases hm
      · rw [ht] at hm
        rcases List.mem_cons.mp hm with heq | hnil
        · have hb : r.bucket = .disk_issues := h (by rw [ht, ← heq])
          rw [hb]
          unfold bumpBucket
          simp
        · cases hnil
  · exact hP

theorem foldRules_diskIssue (line : String) (rules : List LogRule)
    (h : ∀ r ∈ rules, logTagOk r) (s : LogSummary) (hP : diskIssueRecorded s) :
    diskIssueRecorded (rules.foldl (applyLogRule line) s) := by
  induction rules generalizing s with
  | nil => exact hP
  | cons r tl ih =>
      simp only [List.foldl_cons]
      exact ih (fun x hx => h x (List.mem_cons_of_mem _ hx)) _
        (applyLogRule_diskIssue line s r (h r (List.mem_cons_self r tl)) hP)

theorem categorizeErrorRules_tagOk : ∀ r ∈ categorizeErrorRules, logTagOk r := by
  intro r hr
  unfold logTagOk
  fin_cases hr <;> simp

theorem galeraEventRules_tagOk : ∀ r ∈ galeraEventRules, logTagOk r := by
  intro r hr
  unfold logTagOk
  fin_cases hr <;> simp

theorem processLine_diskIssue (s : LogSummary) (line : String)
    (hP : diskIssueRecorded s) : diskIssueRecorded (processLine s line) := by
  have h1 : diskIssueRecorded (if reSearch errorPat line = true then
      categorizeError line { s with error_count := s.error_count + 1 } else s) := by
    split
    · exact foldRules_diskIssue line categorizeErrorRules categorizeErrorRules_tagOk _ hP
    · exact hP
  have h2 : ∀ t : LogSummary, diskIssueRecorded t →
      diskIssueRecorded (if reSearch warningPat line = true then
        { t with warning_count := t.warning_count + 1 } else t) := by
    intro t ht
    split
    · exact ht
    · exact ht
  unfold processLine
  split
  · exact hP
  · exact foldRules_diskIssue line galeraEventRules galeraEventRules_tagOk _ (h2 _ h1)

theorem analyzeLogSummary_diskIssue (content : String) :
    diskIssueRecorded (analyzeLogSummary content) := by
  unfold analyzeLogSummary
  have hgen : ∀ (l : List String) (s : LogSummary), diskIssueRecorded s →
      diskIssueRecorded (l.foldl processLine s) := by
    intro l
    induction l with
    | nil => exact fun s hs => hs
    | cons a tl ih =>
        intro s hs
        simp only [List.foldl_cons]
        exact ih _ (processLine_diskIssue s a hs)
  exact hgen _ _ (fun hm => by cases hm)

/-- Claim C7: a line matching both the generic error pattern and the
disk-full pattern increments `error_count` by one and appends exactly one
"disk_full" entry to the critical-events timeline; and whenever any log
has recorded a disk_full timeline entry, the generated findings contain a
critical storage finding and the recommendations contain a priority-1
storage recommendation whose action is the numbered remediation
procedure. -/
theorem claim_C7 :
    (∀ (s : LogSummary) (line : String),
      reSearch errorPat line = true →
      reSearch diskFullPat line = true →
      (listStrip line.toList).isEmpty = false →
      (processLine s line).error_count = s.error_count + 1 ∧
      (processLine s line).critical_events.count "disk_full" =
        s.critical_events.count "disk_full" + 1) ∧
    (∀ (content log_name : String),
      "disk_full" ∈ (analyzeLogSummary content).critical_events →
      (∃ f ∈ generateLogFindings (analyzeLogSummary content) log_name,
        f.severity = .critical ∧ f.category = .storage) ∧
      (∃ r ∈ generateLogRecs (analyzeLogSummary content),
        r.priority = 1 ∧ r.category = .storage ∧
        r.action = "1. Check disk space with df -h\n2. Identify large tables\n3. Clean up old data or expand storage")) := by
  constructor
  · intro s line he hd hb
    have hcp : categorizeErrorRules.countP
        (fun r => r.cond line && (r.tag == some "disk_full")) = 1 := by
      unfold categorizeErrorRules
      simp [List.countP_cons, hd]
    have hgp : galeraEventRules.countP
        (fun r => r.cond line && (r.tag == some "disk_full")) = 0 := by
      unfold galeraEventRules
      simp [List.countP_cons]
    unfold processLine
    rw [if_neg (by rw [hb]; simp), if_pos he]
    unfold checkGaleraEvents categorizeError
    constructor
    · rw [foldRules_error_count]
      split
      · rw [foldRules_error_count]
      · rw [foldRules_error_count]
    · rw [foldRules_count, hgp]
      split
      · rw [show ∀ t : LogSummary, ({ t with
            warning_count := t.warning_count + 1 } : LogSummary).critical_events =
            t.critical_events from fun t => rfl]
        rw [foldRules_count, hcp]
      · rw [foldRules_count, hcp]
  · intro content log_name hmem
    have hdisk : 0 < (analyzeLogSummary content).buckets .disk_issues :=
      analyzeLogSummary_diskIssue content hmem
    constructor
    · have hmf : diskFinding log_name
          ∈ generateLogFindings (analyzeLogSummary content) log_name := by
        unfold generateLogFindings
        rw [if_pos hdisk]
        simp only [List.append_assoc, List.cons_append, List.nil_append]
        exact List.Mem.head _
      exact ⟨_, hmf, rfl, rfl⟩
    · have hmr : diskRec ∈ generateLogRecs (analyzeLogSummary content) := by
        unfold generateLogRecs
        rw [if_pos hdisk]
        simp only [List.append_assoc, List.cons_append, List.nil_append]
        exact List.Mem.head _
      exact ⟨_, hmr, rfl, rfl, rfl⟩

/-- Claim C7 witness: the concrete error line above satisfies both
patterns, and analysing it as a log yields the disk_full timeline entry,
the critical storage finding and the numbered remediation
recommendation. -/
theorem claim_C7_witness :
    (reSearch errorPat logLineC7 = true ∧ reSearch diskFullPat logLineC7 = true ∧
      (listStrip logLineC7.toList).isEmpty = false ∧
      "disk_full" ∈ (analyzeLogSummary logLineC7).critical_events) ∧
    ((processLine {} logLineC7).error_count = 0 + 1 ∧
      (processLine {} logLineC7).critical_events.count "disk_full" =
        (({} : LogSummary)).critical_events.count "disk_full" + 1) ∧
    ((∃ f ∈ generateLogFindings (analyzeLogSummary logLineC7) "mariadb.log",
        f.severity = .critical ∧ f.category = .storage) ∧
      (∃ r ∈ generateLogRecs (analyzeLogSummary logLineC7),
        r.priority = 1 ∧ r.category = .storage ∧
        r.action = "1. Check disk space with df -h\n2. Identify large tables\n3. Clean up old data or expand storage")) :=
  ⟨⟨by decide, by decide, by decide, by decide⟩,
   claim_C7.1 {} logLineC7 (by decide) (by decide) (by decide),
   claim_C7.2 logLineC7 "mariadb.log" (by decide)⟩

end MariaDBReview
